import Mathlib

/-!
# Scene object tables of `src/lib/scene.c`

A shallow embedding of the handle-indirection object tables of the scene
(`addSceneObject`, `removeSceneObject`, `growArray`), of the dirty-flag layer
built on them, of texture loading, teardown and the direct-index accessors, and
of `obdn_GetAligned` of `t_utils.c`.

Conventions of the embedding.

* An array in memory is a total function from slot number to element
  (`Nat → α`); storage that was never written holds whatever the function holds
  there.  The number of slots of the object array's current allocation is kept
  next to it (`arrayAlloc`), so that a write past the end of the allocation is
  visible.
* A function returns `none` when an `assert` of the source fails, when it
  touches the object array outside its allocation, or when it hands the
  allocator a value that is no block of the allocator.
* `obint` counters are natural numbers (tables stay far below `2^32` entries).
* `Hell_Stack` belongs to an external library; it is a list whose head is the
  top of the stack.
-/

set_option autoImplicit false

namespace Obsidian

/-! ## Object map and object table -/

/-- The `ObjectMap` struct: `indices` maps a handle id to a position in the
object array, `availableIds` is the stack of ids that can be reused. -/
structure ObjectMap where
  indices : Nat → Nat
  availableIds : List Nat

/-- The pieces of one table that `addSceneObject` and `removeSceneObject`
receive together: the object array, its element count, its capacity and its
object map. -/
structure ObjectTable (α : Type) where
  objectArray : Nat → α
  arrayAlloc : Nat
  objectCount : Nat
  cap : Nat
  map : ObjectMap

/-- The function `createObjectMap`: a fresh indices array (contents
`junk`: the memory is not initialised) and an empty id stack. -/
def createObjectMap (junk : Nat → Nat) : ObjectMap :=
  { indices := junk, availableIds := [] }

/-- A table as `obdn_CreateScene` sets it up: capacity `initCap`, an object
array of `initCap` uninitialised slots, no object, a fresh object map. -/
def createTable {α : Type} (initCap : Nat) (junkObjects : Nat → α) (junk : Nat → Nat) :
    ObjectTable α :=
  { objectArray := junkObjects
    arrayAlloc := initCap
    objectCount := 0
    cap := initCap
    map := createObjectMap junk }

/-- What the `curptr` argument of `growArray` points at: a pointer variable that
holds a block of the allocator, or the objects of an array themselves (then
`*curptr` is the leading bytes of the object in slot 0). -/
inductive PtrCell where
  | block
  | objectBytes

/-- The function `growArray`: `assert(*curcap)`, then `hell_Realloc(*curptr,
newcap * elemsize)` with `newcap = *curcap * 2`, which is defined only when
`*curptr` is a block of the allocator; the block then has `newcap` elements
(contents kept), and `*curcap` becomes `newcap`.  Returns the value left in
`*curcap`. -/
def growArray (curptr : PtrCell) (curcap : Nat) : Option Nat :=
  if curcap = 0 then none
  else
    match curptr with
    | PtrCell.objectBytes => none
    | PtrCell.block => some (curcap * 2)

/-- The growth block of `addSceneObject`.  The first call is
`growArray(objectArray, cap, elemSize)`: its `curptr` is the object array itself,
not the address of the caller's array pointer, so it reallocates the leading
bytes of the object in slot 0 and is undefined.  The second call is
`growArray((void**)&map->indices, cap, elemSize)`, through the same `cap`
pointer.  Returns the value left in `*cap`. -/
def growBoth (cap : Nat) : Option Nat :=
  match growArray PtrCell.objectBytes cap with
  | none => none
  | some cap1 => growArray PtrCell.block cap1

/-- The id choice of `addSceneObject`: `index` when the stack of available ids
is empty, else the popped top of the stack. -/
def takeId (index : Nat) (availableIds : List Nat) : Nat × List Nat :=
  match availableIds with
  | [] => (index, [])
  | top :: rest => (top, rest)

/-- The function `addSceneObject`.  `objectArray` is passed by value, so the
array that `memcpy` writes to is the caller's block, with its old number of
slots, whatever the growth block did. -/
def addSceneObject {α : Type} (object : α) (t : ObjectTable α) :
    Option (Nat × ObjectTable α) :=
  let index := t.objectCount
  let objectCount := t.objectCount + 1
  match (if index = t.cap then growBoth t.cap else some t.cap) with
  | none => none
  | some cap =>
    if ¬ index < cap then none
    else
      let (id, rest) := takeId index t.map.availableIds
      if ¬ index < t.arrayAlloc then none
      else
        some (id,
          { objectArray := Function.update t.objectArray index object
            arrayAlloc := t.arrayAlloc
            objectCount := objectCount
            cap := cap
            map := { indices := Function.update t.map.indices id index
                     availableIds := rest } })

/-- The libc `memmove` on an array of elements: `n` elements starting at slot
`src` are copied to the slots starting at `dst`, as if through a temporary. -/
def memmove {α : Type} (mem : Nat → α) (dst src n : Nat) : Nat → α :=
  fun j => if dst ≤ j ∧ j < dst + n then mem (src + (j - dst)) else mem j

/-- The function `removeSceneObject`.  `dst` is slot `indices[id]`, `src` the
slot after it, `end` the slot `objectCount`; when `end` lies before `src` the
unsigned `range` wraps around and the move leaves the array. -/
def removeSceneObject {α : Type} (id : Nat) (t : ObjectTable α) :
    Option (ObjectTable α) :=
  let dst := t.map.indices id
  let src := dst + 1
  let endSlot := t.objectCount
  if endSlot < src then none
  else
    let range := endSlot - src
    if 0 < range ∧ t.arrayAlloc < endSlot then none
    else
      some { t with
        objectArray := memmove t.objectArray dst src range
        objectCount := t.objectCount - 1
        map := { t.map with availableIds := id :: t.map.availableIds } }

/-- Resolving a handle id, as the macros `PRIM`, `LIGHT`, `TEXTURE` and
`MATERIAL` do: `array[map.indices[id]]`. -/
def resolve {α : Type} (t : ObjectTable α) (id : Nat) : α :=
  t.objectArray (t.map.indices id)

/-- One call on a table: an insert of a value or a remove of an id. -/
inductive TableOp (α : Type) where
  | insert (v : α)
  | remove (id : Nat)

/-- Running a sequence of calls on a table, first call first.  Returns the ids
that the inserts returned, in order, and the table at the end. -/
def runTable {α : Type} (t : ObjectTable α) :
    List (TableOp α) → Option (List Nat × ObjectTable α)
  | [] => some ([], t)
  | .insert v :: ops =>
    match addSceneObject v t with
    | none => none
    | some (id, t1) =>
      match runTable t1 ops with
      | none => none
      | some (ids, t2) => some (id :: ids, t2)
  | .remove id :: ops =>
    match removeSceneObject id t with
    | none => none
    | some t1 => runTable t1 ops


/-! ## Scene -/

/-- Modelled from the spec: `scene.h` is not among the sources, so the constants
it declares are parameters.  The spec names a dirty-flag bitset with one bit per
category and a "no resource" texture handle; `flagsWidth` is the width in bits
of `Obdn_SceneDirtyFlags`, the seven `_BIT` fields are the `OBDN_SCENE_*_BIT`
constants that `scene.c` uses. -/
structure SceneConsts where
  flagsWidth : Nat
  PRIMS_BIT : Nat
  LIGHTS_BIT : Nat
  MATERIALS_BIT : Nat
  TEXTURES_BIT : Nat
  CAMERA_VIEW_BIT : Nat
  CAMERA_PROJ_BIT : Nat
  XFORMS_BIT : Nat
  NULL_TEXTURE : Nat

/-- The flag constants fit in the flags type. -/
def SceneConsts.Fits (k : SceneConsts) : Prop :=
  k.PRIMS_BIT < 2 ^ k.flagsWidth ∧ k.LIGHTS_BIT < 2 ^ k.flagsWidth
  ∧ k.MATERIALS_BIT < 2 ^ k.flagsWidth ∧ k.TEXTURES_BIT < 2 ^ k.flagsWidth
  ∧ k.CAMERA_VIEW_BIT < 2 ^ k.flagsWidth ∧ k.CAMERA_PROJ_BIT < 2 ^ k.flagsWidth

/-- One assignment of the constants: an 8-bit flags type and seven distinct
single bits. -/
def exampleConsts : SceneConsts :=
  { flagsWidth := 8
    CAMERA_VIEW_BIT := 1
    CAMERA_PROJ_BIT := 2
    LIGHTS_BIT := 4
    XFORMS_BIT := 8
    MATERIALS_BIT := 16
    TEXTURES_BIT := 32
    PRIMS_BIT := 64
    NULL_TEXTURE := 0 }

/-- The vector `Coal_Vec3` over a type `F` of floating-point values. -/
structure Vec3 (F : Type) where
  x : F
  y : F
  z : F

/-- The two light types. -/
inductive LightType where
  | direction
  | point

/-- The struct `Obdn_Light`; `structure_` is the union that holds the direction
of a direction light or the position of a point light. -/
structure Light (F : Type) where
  type : LightType
  intensity : F
  structure_ : Vec3 F
  color : Vec3 F

/-- The struct `Obdn_Material`; the three textures are handle ids. -/
structure Material (F : Type) where
  color : Vec3 F
  roughness : F
  textureAlbedo : Nat
  textureRoughness : Nat
  textureNormal : Nat

/-- The struct `Obdn_Texture`; image and buffer region belong to the memory
collaborator. -/
structure Texture (I B : Type) where
  devImage : I
  hostBuffer : B

/-- The struct `Obdn_Geometry` as far as the scene reads it: the vertex count and
the rest of the record. -/
structure Geometry (G : Type) where
  vertexCount : Nat
  rest : G

/-- The struct `Obdn_Primitive`; `material` is a handle id. -/
structure Primitive (G M : Type) where
  geo : Geometry G
  xform : M
  material : Nat

/-- The struct `Obdn_Camera`. -/
structure Camera (M : Type) where
  xform : M
  view : M
  proj : M

/-- The struct `Obdn_Scene`.  Each table groups the array, count, capacity and
object map of one category (`prims`, `primCount`, `primCapacity`, `primMap` and
so on); the `memory` pointer is left out. -/
structure Scene (F M G I B : Type) where
  dirt : Nat
  camera : Camera M
  prims : ObjectTable (Primitive G M)
  lights : ObjectTable (Light F)
  materials : ObjectTable (Material F)
  textures : ObjectTable (Texture I B)

/-- The collaborators that `scene.c` calls: floating-point literals (`ofDecimal
m e` is the literal `m / 10^e`), the matrix library, the release functions of
geometry and image, and the texture that `createDefaultTexture` builds. -/
structure Collab (F M G I B : Type) where
  ofDecimal : Nat → Nat → F
  identMat4 : M
  lookAt : Vec3 F → Vec3 F → Vec3 F → M
  invert4x4 : M → M
  buildPerspective : F → F → M
  multMat4 : M → M → M
  freeGeo : Geometry G → Geometry G
  freeImage : I → I
  defaultTexture : Texture I B

/-- The contents of the eight arrays that `obdn_CreateScene` allocates without
initialising them. -/
structure Junk (F M G I B : Type) where
  prims : Nat → Primitive G M
  lights : Nat → Light F
  materials : Nat → Material F
  textures : Nat → Texture I B
  primIndices : Nat → Nat
  lightIndices : Nat → Nat
  matIndices : Nat → Nat
  texIndices : Nat → Nat

/-- The two pixel formats that `obdn_LoadTexture` chooses between. -/
inductive VkFormat where
  | R8_UNORM
  | R8G8B8A8_UNORM

/-- The image side of the memory collaborator, as `obdn_LoadTexture` and
`obdn_CleanUpScene` use it: `loadImage path channelCount format` is the image
that `obdn_LoadImage` stores, `zeroBuffer` the all-zero buffer region of
`Texture texture = {0}`, `hasHostData` tells whether `hostBuffer.hostData` is
non-null. -/
structure ImageLoader (I B P : Type) where
  loadImage : P → Nat → VkFormat → I
  zeroBuffer : B
  hasHostData : B → Bool

/-- A call of a release function made by `obdn_CleanUpScene`, with the position
in the array of the object it is called on. -/
inductive ReleaseCall where
  | freeGeo (pos : Nat)
  | freeImage (pos : Nat)
  | freeBufferRegion (pos : Nat)
  deriving DecidableEq

section SceneOps

variable {F M G I B : Type}

/-- The constant `INIT_PRIM_CAP`. -/
def INIT_PRIM_CAP : Nat := 16
/-- The constant `INIT_LIGHT_CAP`. -/
def INIT_LIGHT_CAP : Nat := 8
/-- The constant `INIT_MATERIAL_CAP`. -/
def INIT_MATERIAL_CAP : Nat := 8
/-- The constant `INIT_TEXTURE_CAP`. -/
def INIT_TEXTURE_CAP : Nat := 8

/-- The field `primCount`. -/
def Scene.primCount (s : Scene F M G I B) : Nat := s.prims.objectCount
/-- The field `lightCount`. -/
def Scene.lightCount (s : Scene F M G I B) : Nat := s.lights.objectCount
/-- The field `materialCount`. -/
def Scene.materialCount (s : Scene F M G I B) : Nat := s.materials.objectCount
/-- The field `textureCount`. -/
def Scene.textureCount (s : Scene F M G I B) : Nat := s.textures.objectCount
/-- The field `primCapacity`. -/
def Scene.primCapacity (s : Scene F M G I B) : Nat := s.prims.cap
/-- The field `lightCapacity`. -/
def Scene.lightCapacity (s : Scene F M G I B) : Nat := s.lights.cap
/-- The field `materialCapacity`. -/
def Scene.materialCapacity (s : Scene F M G I B) : Nat := s.materials.cap
/-- The field `textureCapacity`. -/
def Scene.textureCapacity (s : Scene F M G I B) : Nat := s.textures.cap

/-- An in-place change of the object a handle id resolves to, as the statements
`PRIM(scene, handle).field = ...` do; `none` when `indices[id]` points outside
the array. -/
def modifyObject {α : Type} (t : ObjectTable α) (id : Nat) (f : α → α) :
    Option (ObjectTable α) :=
  if t.map.indices id < t.arrayAlloc then
    some { t with objectArray :=
      Function.update t.objectArray (t.map.indices id) (f (t.objectArray (t.map.indices id))) }
  else none

/-- The function `addPrim`. -/
def addPrim (k : SceneConsts) (s : Scene F M G I B) (prim : Primitive G M) :
    Option (Nat × Scene F M G I B) :=
  match addSceneObject prim s.prims with
  | none => none
  | some (id, t) => some (id, { s with prims := t, dirt := s.dirt ||| k.PRIMS_BIT })

/-- The function `addLight`. -/
def addLight (k : SceneConsts) (s : Scene F M G I B) (light : Light F) :
    Option (Nat × Scene F M G I B) :=
  match addSceneObject light s.lights with
  | none => none
  | some (id, t) => some (id, { s with lights := t, dirt := s.dirt ||| k.LIGHTS_BIT })

/-- The function `addTexture`. -/
def addTexture (k : SceneConsts) (s : Scene F M G I B) (texture : Texture I B) :
    Option (Nat × Scene F M G I B) :=
  match addSceneObject texture s.textures with
  | none => none
  | some (id, t) => some (id, { s with textures := t, dirt := s.dirt ||| k.TEXTURES_BIT })

/-- The function `addMaterial`. -/
def addMaterial (k : SceneConsts) (s : Scene F M G I B) (material : Material F) :
    Option (Nat × Scene F M G I B) :=
  match addSceneObject material s.materials with
  | none => none
  | some (id, t) => some (id, { s with materials := t, dirt := s.dirt ||| k.MATERIALS_BIT })

/-- The function `removePrim`: the assert on the capacity, `obdn_FreeGeo` on the
geometry the handle resolves to, then `removeSceneObject`. -/
def removePrim (k : SceneConsts) (c : Collab F M G I B) (s : Scene F M G I B)
    (handle : Nat) : Option (Scene F M G I B) :=
  if ¬ handle < s.prims.cap then none
  else
    match modifyObject s.prims handle (fun p => { p with geo := c.freeGeo p.geo }) with
    | none => none
    | some t0 =>
      match removeSceneObject handle t0 with
      | none => none
      | some t => some { s with prims := t, dirt := s.dirt ||| k.PRIMS_BIT }

/-- The function `removeLight`. -/
def removeLight (k : SceneConsts) (s : Scene F M G I B) (handle : Nat) :
    Option (Scene F M G I B) :=
  if ¬ handle < s.lights.cap then none
  else
    match removeSceneObject handle s.lights with
    | none => none
    | some t => some { s with lights := t, dirt := s.dirt ||| k.LIGHTS_BIT }

/-- The function `removeTexture`: the assert on the capacity, `obdn_FreeImage` on
the image the handle resolves to, then `removeSceneObject`. -/
def removeTexture (k : SceneConsts) (c : Collab F M G I B) (s : Scene F M G I B)
    (handle : Nat) : Option (Scene F M G I B) :=
  if ¬ handle < s.textures.cap then none
  else
    match modifyObject s.textures handle
        (fun x => { x with devImage := c.freeImage x.devImage }) with
    | none => none
    | some t0 =>
      match removeSceneObject handle t0 with
      | none => none
      | some t => some { s with textures := t, dirt := s.dirt ||| k.TEXTURES_BIT }

/-- The function `removeMaterial`. -/
def removeMaterial (k : SceneConsts) (s : Scene F M G I B) (handle : Nat) :
    Option (Scene F M G I B) :=
  if ¬ handle < s.materials.cap then none
  else
    match removeSceneObject handle s.materials with
    | none => none
    | some t => some { s with materials := t, dirt := s.dirt ||| k.MATERIALS_BIT }

/-- The function `obdn_SceneCreateMaterial`. -/
def obdn_SceneCreateMaterial (k : SceneConsts) (s : Scene F M G I B) (color : Vec3 F)
    (roughness : F) (albedoId roughnessId normalId : Nat) :
    Option (Nat × Scene F M G I B) :=
  addMaterial k s
    { color := color
      roughness := roughness
      textureAlbedo := albedoId
      textureRoughness := roughnessId
      textureNormal := normalId }

/-- The scene of `obdn_CreateScene` before the default texture is added: zeroed,
the camera set, the four capacities set, the object maps and arrays
allocated. -/
def sceneBeforeDefaults (c : Collab F M G I B) (junk : Junk F M G I B)
    (nearClip farClip : F) : Scene F M G I B :=
  let m := c.lookAt ⟨c.ofDecimal 1 0, c.ofDecimal 1 0, c.ofDecimal 2 0⟩
    ⟨c.ofDecimal 0 0, c.ofDecimal 0 0, c.ofDecimal 0 0⟩
    ⟨c.ofDecimal 0 0, c.ofDecimal 1 0, c.ofDecimal 0 0⟩
  { dirt := 0
    camera := { xform := m, view := c.invert4x4 m, proj := c.buildPerspective nearClip farClip }
    prims := createTable INIT_PRIM_CAP junk.prims junk.primIndices
    lights := createTable INIT_LIGHT_CAP junk.lights junk.lightIndices
    materials := createTable INIT_MATERIAL_CAP junk.materials junk.matIndices
    textures := createTable INIT_TEXTURE_CAP junk.textures junk.texIndices }

/-- The default material of `obdn_CreateScene` for a given albedo texture. -/
def defaultMaterial (k : SceneConsts) (c : Collab F M G I B) (texhandle : Nat) : Material F :=
  { color := ⟨c.ofDecimal 0 0, c.ofDecimal 937 3, c.ofDecimal 10 1⟩
    roughness := c.ofDecimal 8 1
    textureAlbedo := texhandle
    textureRoughness := k.NULL_TEXTURE
    textureNormal := k.NULL_TEXTURE }

/-- The function `obdn_CreateScene` (the registration of the console commands
is left out): the default texture is added, the default material is created on
it, then `dirt = -1`, which is all ones in the flags type. -/
def obdn_CreateScene (k : SceneConsts) (c : Collab F M G I B) (junk : Junk F M G I B)
    (nearClip farClip : F) : Option (Scene F M G I B) :=
  match addTexture k (sceneBeforeDefaults c junk nearClip farClip) c.defaultTexture with
  | none => none
  | some (texhandle, s1) =>
    match obdn_SceneCreateMaterial k s1
        ⟨c.ofDecimal 0 0, c.ofDecimal 937 3, c.ofDecimal 10 1⟩ (c.ofDecimal 8 1)
        texhandle k.NULL_TEXTURE k.NULL_TEXTURE with
    | none => none
    | some (_, s2) => some { s2 with dirt := 2 ^ k.flagsWidth - 1 }

/-- The function `obdn_BindPrimToMaterial`. -/
def obdn_BindPrimToMaterial (k : SceneConsts) (s : Scene F M G I B)
    (primhandle mathandle : Nat) : Option (Scene F M G I B) :=
  if ¬ s.materials.objectCount > mathandle then none
  else
    match modifyObject s.prims primhandle (fun p => { p with material := mathandle }) with
    | none => none
    | some t => some { s with prims := t, dirt := s.dirt ||| k.PRIMS_BIT }

/-- The function `obdn_UpdateCamera_LookAt`. -/
def obdn_UpdateCamera_LookAt (k : SceneConsts) (c : Collab F M G I B)
    (s : Scene F M G I B) (pos target up : Vec3 F) : Scene F M G I B :=
  let xform := c.lookAt pos target up
  { s with
    camera := { s.camera with xform := xform, view := c.invert4x4 xform }
    dirt := s.dirt ||| k.CAMERA_VIEW_BIT }

/-- The function `obdn_UpdateLight`. -/
def obdn_UpdateLight (k : SceneConsts) (s : Scene F M G I B) (handle : Nat)
    (intensity : F) : Option (Scene F M G I B) :=
  match modifyObject s.lights handle (fun l => { l with intensity := intensity }) with
  | none => none
  | some t => some { s with lights := t, dirt := s.dirt ||| k.LIGHTS_BIT }

/-- The function `obdn_UpdatePrimXform`. -/
def obdn_UpdatePrimXform (k : SceneConsts) (c : Collab F M G I B) (s : Scene F M G I B)
    (handle : Nat) (delta : M) : Option (Scene F M G I B) :=
  match modifyObject s.prims handle (fun p => { p with xform := c.multMat4 p.xform delta }) with
  | none => none
  | some t => some { s with prims := t, dirt := s.dirt ||| k.XFORMS_BIT }

/-- The function `obdn_UpdateLightColor`. -/
def obdn_UpdateLightColor (k : SceneConsts) (s : Scene F M G I B) (handle : Nat)
    (r g b : F) : Option (Scene F M G I B) :=
  match modifyObject s.lights handle (fun l => { l with color := ⟨r, g, b⟩ }) with
  | none => none
  | some t => some { s with lights := t, dirt := s.dirt ||| k.LIGHTS_BIT }

/-- The function `obdn_UpdateLightPos`. -/
def obdn_UpdateLightPos (k : SceneConsts) (s : Scene F M G I B) (handle : Nat)
    (x y z : F) : Option (Scene F M G I B) :=
  match modifyObject s.lights handle (fun l => { l with structure_ := ⟨x, y, z⟩ }) with
  | none => none
  | some t => some { s with lights := t, dirt := s.dirt ||| k.LIGHTS_BIT }

/-- The function `obdn_UpdateLightIntensity`. -/
def obdn_UpdateLightIntensity (k : SceneConsts) (s : Scene F M G I B) (handle : Nat)
    (i : F) : Option (Scene F M G I B) :=
  match modifyObject s.lights handle (fun l => { l with intensity := i }) with
  | none => none
  | some t => some { s with lights := t, dirt := s.dirt ||| k.LIGHTS_BIT }

/-- The function `obdn_GetSceneDirt`. -/
def obdn_GetSceneDirt (s : Scene F M G I B) : Nat := s.dirt

/-- The function `obdn_SceneClearDirt`. -/
def obdn_SceneClearDirt (s : Scene F M G I B) : Scene F M G I B :=
  { s with dirt := 0 }

/-- The function `obdn_SceneSetCameraView`. -/
def obdn_SceneSetCameraView (k : SceneConsts) (s : Scene F M G I B) (m : M) :
    Scene F M G I B :=
  { s with camera := { s.camera with view := m }, dirt := s.dirt ||| k.CAMERA_VIEW_BIT }

/-- The function `obdn_SceneSetCameraProjection`. -/
def obdn_SceneSetCameraProjection (k : SceneConsts) (s : Scene F M G I B) (m : M) :
    Scene F M G I B :=
  { s with camera := { s.camera with proj := m }, dirt := s.dirt ||| k.CAMERA_PROJ_BIT }

/-- An in-place change of the object at a position of the array, as the
statements `s->prims[directIndex].field = ...` do; `none` when the position lies
outside the array. -/
def modifySlot {α : Type} (t : ObjectTable α) (pos : Nat) (f : α → α) :
    Option (ObjectTable α) :=
  if pos < t.arrayAlloc then
    some { t with
      objectArray := Function.update t.objectArray pos (f (t.objectArray pos)) }
  else none

/-- The format switch of `obdn_LoadTexture`: a format for 1, 3 and 4 channels,
none in the default case. -/
def textureFormat (channelCount : Nat) : Option VkFormat :=
  match channelCount with
  | 1 => some VkFormat.R8_UNORM
  | 3 => some VkFormat.R8G8B8A8_UNORM
  | 4 => some VkFormat.R8G8B8A8_UNORM
  | _ => none

/-- The function `obdn_LoadTexture`: in the default case of the switch it
returns `NULL_TEXTURE` at once; otherwise `obdn_LoadImage` fills the image of a
zeroed texture, which is added. -/
def obdn_LoadTexture {P : Type} (k : SceneConsts) (ld : ImageLoader I B P)
    (s : Scene F M G I B) (filePath : P) (channelCount : Nat) :
    Option (Nat × Scene F M G I B) :=
  match textureFormat channelCount with
  | none => some (k.NULL_TEXTURE, s)
  | some format =>
    addTexture k s
      { devImage := ld.loadImage filePath channelCount format, hostBuffer := ld.zeroBuffer }

/-- The calls of the texture loop of `obdn_CleanUpScene` for one value of `i`:
`obdn_FreeImage` on `textures[i]`, then `obdn_FreeBufferRegion` when its host
data pointer is set. -/
def textureRelease {P : Type} (ld : ImageLoader I B P) (textures : Nat → Texture I B)
    (i : Nat) : List ReleaseCall :=
  if ld.hasHostData (textures i).hostBuffer then
    [ReleaseCall.freeImage i, ReleaseCall.freeBufferRegion i]
  else [ReleaseCall.freeImage i]

/-- The function `obdn_CleanUpScene`, as the list of release calls it makes, in
order: the first loop runs `i` over `0 .. primCount - 1`, the second loop runs
`i` over `1 .. textureCount`.  `none` when a loop reads outside its array.  The
scene itself is zeroed at the end and is not returned. -/
def obdn_CleanUpScene {P : Type} (ld : ImageLoader I B P) (s : Scene F M G I B) :
    Option (List ReleaseCall) :=
  if 0 < s.prims.objectCount ∧ s.prims.arrayAlloc < s.prims.objectCount then none
  else if 0 < s.textures.objectCount ∧ s.textures.arrayAlloc < s.textures.objectCount + 1 then
    none
  else
    some ((List.range s.prims.objectCount).map ReleaseCall.freeGeo
      ++ ((List.range s.textures.objectCount).map
            fun j => textureRelease ld s.textures.objectArray (j + 1)).flatten)

/-- The function `obdn_SceneSetGeoDirect`. -/
def obdn_SceneSetGeoDirect (k : SceneConsts) (s : Scene F M G I B) (geo : Geometry G)
    (directIndex : Nat) : Option (Scene F M G I B) :=
  match modifySlot s.prims directIndex (fun p => { p with geo := geo }) with
  | none => none
  | some t => some { s with prims := t, dirt := s.dirt ||| k.PRIMS_BIT }

/-- The function `obdn_SceneHasGeoDirect`: it tests the vertex count of
`s->prims[0]`. -/
def obdn_SceneHasGeoDirect (s : Scene F M G I B) (_directIndex : Nat) : Option Bool :=
  if 0 < s.prims.arrayAlloc then
    some (if (s.prims.objectArray 0).geo.vertexCount ≠ 0 then true else false)
  else none

end SceneOps

/-! ## Runs with the set of live ids -/

/-- Running a sequence of calls on a table together with the list of live ids
(issued by an insert and not removed since); a remove of an id that is not live
is refused. -/
def runLive {α : Type} (t : ObjectTable α) (live : List Nat) :
    List (TableOp α) → Option (ObjectTable α × List Nat)
  | [] => some (t, live)
  | .insert v :: ops =>
    match addSceneObject v t with
    | none => none
    | some (id, t1) => runLive t1 (id :: live) ops
  | .remove id :: ops =>
    if id ∈ live then
      match removeSceneObject id t with
      | none => none
      | some t1 => runLive t1 (live.erase id) ops
    else none

/-- The bookkeeping of ids between a table and the list of its live ids: no id
is listed twice, no live id is on the stack of available ids, live ids and stack
together are the ids below `objectCount + stack size`, there are `objectCount`
live ids, and `objectCount + stack size` exceeds neither the capacity nor the
number of slots of the object array. -/
def Bookkeeping {α : Type} (t : ObjectTable α) (live : List Nat) : Prop :=
  live.Nodup ∧ t.map.availableIds.Nodup
  ∧ (∀ x, x ∈ live → x ∉ t.map.availableIds)
  ∧ (∀ x, (x ∈ live ∨ x ∈ t.map.availableIds) ↔
      x < t.objectCount + t.map.availableIds.length)
  ∧ live.length = t.objectCount
  ∧ t.objectCount + t.map.availableIds.length ≤ t.cap
  ∧ t.objectCount + t.map.availableIds.length ≤ t.arrayAlloc

/-! ## Alignment (`t_utils.c`) -/

/-- The function `obdn_GetAligned` on a 64-bit quantity and a 32-bit alignment:
`none` when `assert(alignment != 0)` fails; the product is taken in 64-bit
unsigned arithmetic. -/
def obdn_GetAligned (quantity alignment : Nat) : Option Nat :=
  if alignment = 0 then none
  else if quantity % alignment ≠ 0 then
    some (((quantity / alignment + 1) * alignment) % 2 ^ 64)
  else some quantity

/-! ## Example inputs -/

/-- A fresh table of natural numbers with every uninitialised slot holding 0. -/
def freshNat (initCap : Nat) : ObjectTable Nat :=
  createTable initCap (fun _ => 0) (fun _ => 0)

/-- The first `n` slots of an array, as a list. -/
def slots {α : Type} (mem : Nat → α) (n : Nat) : List α :=
  (List.range n).map mem

/-- A table holding the values 10, 11, 12 at ids 0, 1, 2, in a capacity of 8. -/
def threeObjects : ObjectTable Nat :=
  { objectArray := Function.update (Function.update (Function.update (fun _ => 0) 0 10) 1 11) 2 12
    arrayAlloc := 8
    objectCount := 3
    cap := 8
    map := { indices := Function.update (Function.update (Function.update (fun _ => 0) 0 0) 1 1) 2 2
             availableIds := [] } }

/-- The table `threeObjects` after its id 2 was removed: ids 0 and 1 are live
and id 2 is on the stack of available ids. -/
def twoObjectsOneFree : ObjectTable Nat :=
  { threeObjects with
    objectArray := memmove threeObjects.objectArray 2 3 0
    objectCount := 2
    map := { threeObjects.map with availableIds := [2] } }

/-- The inserts of the values `100, 101, ..., 100 + n - 1`. -/
def insertsFrom100 (n : Nat) : List (TableOp Nat) :=
  (List.range n).map fun k => TableOp.insert (100 + k)

/-- Collaborators over the one-point type: every external value is `()`. -/
def unitCollab : Collab Unit Unit Unit Unit Unit :=
  { ofDecimal := fun _ _ => ()
    identMat4 := ()
    lookAt := fun _ _ _ => ()
    invert4x4 := fun _ => ()
    buildPerspective := fun _ _ => ()
    multMat4 := fun _ _ => ()
    freeGeo := fun g => g
    freeImage := fun i => i
    defaultTexture := ⟨(), ()⟩ }

/-- Uninitialised arrays over the one-point type, every index entry 0. -/
def unitJunk : Junk Unit Unit Unit Unit Unit :=
  { prims := fun _ => ⟨⟨0, ()⟩, (), 0⟩
    lights := fun _ => ⟨LightType.point, (), ⟨(), (), ()⟩, ⟨(), (), ()⟩⟩
    materials := fun _ => ⟨⟨(), (), ()⟩, (), 0, 0, 0⟩
    textures := fun _ => ⟨(), ()⟩
    primIndices := fun _ => 0
    lightIndices := fun _ => 0
    matIndices := fun _ => 0
    texIndices := fun _ => 0 }

/-- The scene that `obdn_CreateScene` returns over the one-point type with the
constants `exampleConsts`. -/
def createdScene : Scene Unit Unit Unit Unit Unit :=
  { dirt := 255
    camera := ⟨(), (), ()⟩
    prims := createTable 16 unitJunk.prims unitJunk.primIndices
    lights := createTable 8 unitJunk.lights unitJunk.lightIndices
    materials :=
      { objectArray := Function.update unitJunk.materials 0 ⟨⟨(), (), ()⟩, (), 0, 0, 0⟩
        arrayAlloc := 8
        objectCount := 1
        cap := 8
        map := { indices := Function.update unitJunk.matIndices 0 0, availableIds := [] } }
    textures :=
      { objectArray := Function.update unitJunk.textures 0 ⟨(), ()⟩
        arrayAlloc := 8
        objectCount := 1
        cap := 8
        map := { indices := Function.update unitJunk.texIndices 0 0, availableIds := [] } } }

/-- A primitive with three vertices bound to material 0. -/
def examplePrim : Primitive Unit Unit := ⟨⟨3, ()⟩, (), 0⟩

/-- A point light. -/
def exampleLight : Light Unit := ⟨LightType.point, (), ⟨(), (), ()⟩, ⟨(), (), ()⟩⟩

/-- The scene `createdScene` after one primitive (handle id 0) and one point
light (handle id 0) were added and the dirty flags were cleared. -/
def exampleScene : Scene Unit Unit Unit Unit Unit :=
  { createdScene with
    dirt := 0
    prims :=
      { createdScene.prims with
        objectArray := Function.update unitJunk.prims 0 examplePrim
        objectCount := 1
        map := { indices := Function.update unitJunk.primIndices 0 0, availableIds := [] } }
    lights :=
      { createdScene.lights with
        objectArray := Function.update unitJunk.lights 0 exampleLight
        objectCount := 1
        map := { indices := Function.update unitJunk.lightIndices 0 0, availableIds := [] } } }

/-- An image loader over the one-point type; no buffer has host data. -/
def unitLoader : ImageLoader Unit Unit Unit :=
  { loadImage := fun _ _ _ => ()
    zeroBuffer := ()
    hasHostData := fun _ => false }

/-- The scene `exampleScene` after a second primitive, one without vertices,
was added at position 1. -/
def twoPrimScene : Scene Unit Unit Unit Unit Unit :=
  { exampleScene with
    dirt := 64
    prims :=
      { exampleScene.prims with
        objectArray := Function.update exampleScene.prims.objectArray 1 ⟨⟨0, ()⟩, (), 0⟩
        objectCount := 2
        map := { indices := Function.update exampleScene.prims.map.indices 1 1
                 availableIds := [] } } }

/-- The table `threeObjects` after its id 0 and then its id 1 were removed: id 2
is live, ids 1 and 0 are on the stack of available ids, 1 on top. -/
def oneObjectTwoFree : ObjectTable Nat :=
  { threeObjects with
    objectArray := memmove (memmove threeObjects.objectArray 0 1 2) 1 2 0
    objectCount := 1
    map := { threeObjects.map with availableIds := [1, 0] } }

/-! ## Object tables: removal, id allocation, insertion -/

theorem memmove_below {α : Type} (mem : Nat → α) (dst src n j : Nat) (h : j < dst) :
    memmove mem dst src n j = mem j := by
  unfold memmove
  rw [if_neg]
  omega

theorem memmove_inside {α : Type} (mem : Nat → α) (dst src n j : Nat)
    (h1 : dst ≤ j) (h2 : j < dst + n) :
    memmove mem dst src n j = mem (src + (j - dst)) := by
  unfold memmove
  rw [if_pos ⟨h1, h2⟩]

theorem removeSceneObject_eq {α : Type} (id : Nat) (t : ObjectTable α)
    (hlive : t.map.indices id < t.objectCount) (halloc : t.objectCount ≤ t.arrayAlloc) :
    removeSceneObject id t = some { t with
      objectArray := memmove t.objectArray (t.map.indices id) (t.map.indices id + 1)
        (t.objectCount - (t.map.indices id + 1))
      objectCount := t.objectCount - 1
      map := { t.map with availableIds := id :: t.map.availableIds } } := by
  unfold removeSceneObject
  have h1 : ¬ t.objectCount < t.map.indices id + 1 := by omega
  have h2 : ¬ (0 < t.objectCount - (t.map.indices id + 1) ∧ t.arrayAlloc < t.objectCount) := by
    omega
  simp only [h1, h2, if_false]

theorem growBoth_none (cap : Nat) : growBoth cap = none := by
  unfold growBoth growArray
  by_cases h : cap = 0
  · simp [h]
  · simp [h]

theorem addSceneObject_full {α : Type} (v : α) (t : ObjectTable α)
    (hfull : t.objectCount = t.cap) : addSceneObject v t = none := by
  unfold addSceneObject
  simp only [hfull, if_true, growBoth_none]

theorem addSceneObject_eq {α : Type} (v : α) (t : ObjectTable α)
    (hcap : t.objectCount < t.cap) (hslot : t.objectCount < t.arrayAlloc) :
    addSceneObject v t = some ((takeId t.objectCount t.map.availableIds).1,
      { objectArray := Function.update t.objectArray t.objectCount v
        arrayAlloc := t.arrayAlloc
        objectCount := t.objectCount + 1
        cap := t.cap
        map := { indices := Function.update t.map.indices
                   (takeId t.objectCount t.map.availableIds).1 t.objectCount
                 availableIds := (takeId t.objectCount t.map.availableIds).2 } }) := by
  unfold addSceneObject
  have hfull : t.objectCount ≠ t.cap := by omega
  simp [hfull, hcap, hslot]

/-- An insert completes exactly when the table is not full and slot
`objectCount` lies inside the object array. -/
theorem addSceneObject_isSome_iff {α : Type} (v : α) (t : ObjectTable α) :
    (∃ r, addSceneObject v t = some r)
      ↔ t.objectCount < t.cap ∧ t.objectCount < t.arrayAlloc := by
  constructor
  · rintro ⟨r, hr⟩
    by_cases hfull : t.objectCount = t.cap
    · rw [addSceneObject_full v t hfull] at hr
      exact absurd hr (by simp)
    · unfold addSceneObject at hr
      simp only [hfull, if_false] at hr
      split at hr
      · exact absurd hr (by simp)
      · rename_i hc
        split at hr
        · exact absurd hr (by simp)
        · rename_i ha
          exact ⟨by omega, by omega⟩
  · rintro ⟨hcap, hslot⟩
    exact ⟨_, addSceneObject_eq v t hcap hslot⟩

/-- C1 (bijection invariant), evaluated on the scenario of the claim: three
inserts into a fresh table return ids 0, 1, 2; after `removeSceneObject` of id 1
the count is 2 and `indices[0] = 0`, but `indices[2]` is still 2, which is not
below the count.  One more insert returns id 1 at position 2, so ids 1 and 2
share a position and id 2 resolves to the new value 13 instead of its own 12. -/
theorem removeSceneObject_keeps_stale_index :
    (∃ t, runTable (freshNat 8) [.insert 10, .insert 11, .insert 12, .remove 1]
          = some ([0, 1, 2], t)
        ∧ t.objectCount = 2 ∧ t.map.indices 0 = 0 ∧ t.map.indices 2 = 2
        ∧ ¬ t.map.indices 2 < t.objectCount)
    ∧ (∃ t, runTable (freshNat 8)
            [.insert 10, .insert 11, .insert 12, .remove 1, .insert 13]
          = some ([0, 1, 2, 1], t)
        ∧ t.objectCount = 3 ∧ t.map.indices 1 = 2 ∧ t.map.indices 2 = 2
        ∧ resolve t 2 = 13) :=
  ⟨⟨_, rfl, rfl, rfl, rfl, by decide⟩, ⟨_, rfl, rfl, rfl, rfl, rfl⟩⟩

/-- C2 (order-preserving removal): in a table with `objectCount = n` whose
objects lie inside the array, removing an id whose position `i = indices[id]` is
below `n` succeeds, leaves `n - 1` objects, keeps every slot before `i`, moves
the object of every slot `j` with `i < j < n` to slot `j - 1`, and so leaves the
old first `n` slots with exactly the one at `i` deleted. -/
theorem removeSceneObject_order_preserving {α : Type} (id : Nat) (t : ObjectTable α)
    (hlive : t.map.indices id < t.objectCount) (halloc : t.objectCount ≤ t.arrayAlloc) :
    ∃ t1, removeSceneObject id t = some t1
      ∧ t1.objectCount = t.objectCount - 1
      ∧ (∀ j, j < t.map.indices id → t1.objectArray j = t.objectArray j)
      ∧ (∀ j, t.map.indices id < j → j < t.objectCount →
            t1.objectArray (j - 1) = t.objectArray j)
      ∧ slots t1.objectArray t1.objectCount
          = (slots t.objectArray t.objectCount).eraseIdx (t.map.indices id) := by
  refine ⟨_, removeSceneObject_eq id t hlive halloc, rfl, ?_, ?_, ?_⟩
  · intro j hj
    exact memmove_below _ _ _ _ _ hj
  · intro j h1 h2
    show memmove _ _ _ _ (j - 1) = _
    rw [memmove_inside _ _ _ _ _ (by omega) (by omega)]
    congr 1
    omega
  · show slots (memmove _ _ _ _) (t.objectCount - 1) = _
    apply List.ext_getElem
    · rw [List.length_eraseIdx_of_lt (by simpa [slots] using hlive)]
      simp [slots]
    · intro j h1 h2
      have hj : j < t.objectCount - 1 := by simpa [slots] using h1
      rw [List.getElem_eraseIdx]
      by_cases hji : j < t.map.indices id
      · simp [slots, hji, memmove_below _ _ _ _ _ hji]
      · simp only [slots, List.getElem_map, List.getElem_range, hji, dite_false]
        rw [memmove_inside _ _ _ _ _ (by omega) (by omega)]
        congr 1
        omega

/-- The witness of C2: values A = 10, B = 11, C = 12 at ids 0, 1, 2; removing
B's id leaves `[A, C]`. -/
theorem removeSceneObject_order_preserving_witness :
    ∃ t, runTable (freshNat 8) [.insert 10, .insert 11, .insert 12] = some ([0, 1, 2], t)
      ∧ ∃ t1, removeSceneObject 1 t = some t1
        ∧ t1.objectCount = t.objectCount - 1
        ∧ (∀ j, j < t.map.indices 1 → t1.objectArray j = t.objectArray j)
        ∧ (∀ j, t.map.indices 1 < j → j < t.objectCount →
              t1.objectArray (j - 1) = t.objectArray j)
        ∧ slots t1.objectArray t1.objectCount
            = (slots t.objectArray t.objectCount).eraseIdx (t.map.indices 1)
        ∧ slots t1.objectArray t1.objectCount = [10, 12] := by
  refine ⟨_, rfl, ?_⟩
  obtain ⟨t1, h1, h2, h3, h4, h5⟩ :=
    removeSceneObject_order_preserving 1 threeObjects (by decide) (by decide)
  refine ⟨t1, h1, h2, h3, h4, h5, ?_⟩
  rw [h5]
  rfl

/-- C3 (id allocation): for every table, whenever `addSceneObject` completes it
returns the count before the call when the stack of available ids is empty (and
leaves the stack empty), and otherwise returns the id on top of the stack and
pops it; and it completes on every table that is not full and has slot
`objectCount` inside the object array.  So after removing id 2 from a table
holding ids 0, 1, 2 the next insert returns 2 again, not 3. -/
theorem addSceneObject_id_allocation {α : Type} (v : α) (t : ObjectTable α) :
    (∀ id t1, addSceneObject v t = some (id, t1) →
      (t.map.availableIds = [] → id = t.objectCount ∧ t1.map.availableIds = [])
      ∧ (∀ top rest, t.map.availableIds = top :: rest →
            id = top ∧ t1.map.availableIds = rest))
    ∧ (t.objectCount < t.cap → t.objectCount < t.arrayAlloc →
        ∃ id t1, addSceneObject v t = some (id, t1))
    ∧ (∃ t2, runTable (freshNat 8)
          [.insert 10, .insert 11, .insert 12, .remove 2, .insert 13]
        = some ([0, 1, 2, 2], t2)) := by
  refine ⟨?_, ?_, ⟨_, rfl⟩⟩
  · intro id t1 h
    obtain ⟨hcap, hslot⟩ := (addSceneObject_isSome_iff v t).1 ⟨_, h⟩
    rw [addSceneObject_eq v t hcap hslot] at h
    simp only [Option.some.injEq, Prod.mk.injEq] at h
    obtain ⟨hid, ht⟩ := h
    subst ht
    subst hid
    constructor
    · intro he
      simp [he, takeId]
    · intro top rest he
      simp [he, takeId]
  · intro hcap hslot
    exact ⟨_, _, addSceneObject_eq v t hcap hslot⟩

/-- The witness of C3: the table left by removing id 2 from ids 0, 1, 2 has id 2
on top of its stack, and the next insert completes and returns 2, not 3. -/
theorem addSceneObject_id_allocation_witness :
    removeSceneObject 2 threeObjects = some twoObjectsOneFree
    ∧ ∃ id t1, addSceneObject 13 twoObjectsOneFree = some (id, t1)
      ∧ id = 2 ∧ t1.map.availableIds = [] := by
  refine ⟨rfl, ?_⟩
  obtain ⟨h1, h2, _⟩ := addSceneObject_id_allocation 13 twoObjectsOneFree
  obtain ⟨id, t1, h⟩ := h2 (by decide) (by decide)
  exact ⟨id, t1, h, (h1 id t1 h).2 2 [] rfl⟩

/-- The insert postcondition on a table with room: when the table is not full
and slot `objectCount = n` lies inside the object array, `addSceneObject v`
completes with some id, the count becomes `n + 1`, slot `n` holds `v`,
`indices[id] = n`, the slots below `n` are unchanged and so is `indices[k]` for
every `k` other than `id`. -/
theorem addSceneObject_postcondition_of_room {α : Type} (v : α) (t : ObjectTable α)
    (hcap : t.objectCount < t.cap) (hslot : t.objectCount < t.arrayAlloc) :
    ∃ id t1, addSceneObject v t = some (id, t1)
      ∧ t1.objectCount = t.objectCount + 1
      ∧ t1.objectArray t.objectCount = v
      ∧ t1.map.indices id = t.objectCount
      ∧ (∀ j, j < t.objectCount → t1.objectArray j = t.objectArray j)
      ∧ (∀ k, k ≠ id → t1.map.indices k = t.map.indices k) := by
  refine ⟨_, _, addSceneObject_eq v t hcap hslot, rfl, ?_, ?_, ?_, ?_⟩
  · simp
  · simp
  · intro j hj
    have : j ≠ t.objectCount := by omega
    simp [Function.update_noteq this]
  · intro k hk
    simp [Function.update_noteq hk]

/-- C4 (insert postcondition), evaluated on a full table: after eight inserts
into a fresh table of capacity 8 the count equals the capacity, and
`addSceneObject` of any value enters the growth block, whose first `growArray`
call works on the object array itself, and returns no id and no table: there is
no call result with `dense[n] = v` and `dense[0..n)` unchanged. -/
theorem addSceneObject_full_table_has_no_result :
    ∃ t, runTable (freshNat 8) (insertsFrom100 8) = some (List.range 8, t)
      ∧ t.objectCount = 8 ∧ t.cap = 8 ∧ t.arrayAlloc = 8
      ∧ (∀ v, addSceneObject v t = none)
      ∧ growArray PtrCell.objectBytes t.cap = none :=
  ⟨_, rfl, rfl, rfl, rfl, fun v => addSceneObject_full v _ rfl, rfl⟩

/-- C5 (growth transparency), evaluated on a fresh table of capacity 8: eight
inserts complete and every id resolves to its value; the ninth insert, the one
that triggers growth, does not complete, because the growth block reallocates
through the object array itself instead of the caller's array pointer; the
array keeps its 8 slots, so the ninth value has no slot. -/
theorem addSceneObject_growth_not_transparent :
    ∃ t, runTable (freshNat 8) (insertsFrom100 8) = some (List.range 8, t)
      ∧ (∀ id, id < 8 → resolve t id = 100 + id)
      ∧ t.objectCount = 8 ∧ t.cap = 8 ∧ t.arrayAlloc = 8
      ∧ growBoth t.cap = none
      ∧ addSceneObject 108 t = none
      ∧ runTable (freshNat 8) (insertsFrom100 9) = none :=
  ⟨_, rfl, by decide, rfl, rfl, rfl, rfl, rfl, rfl⟩

/-- C6 (capacity evolution), evaluated: after eight inserts into a fresh table of
capacity 8 the capacity is still 8, and the ninth insert, made with
`objectCount == cap`, does not complete, so it does not leave a capacity of 16.
Each `growArray` call doubles the capacity it is given, and the growth block
makes two calls through the same `cap` pointer: were both to return, a non-zero
capacity `c` would become `4 * c`, not `2 * c`.  The first of them, the one on
the object array, never returns. -/
theorem addSceneObject_growth_never_doubles_cap :
    (∃ t, runTable (freshNat 8) (insertsFrom100 8) = some (List.range 8, t)
      ∧ t.objectCount = 8 ∧ t.cap = 8
      ∧ addSceneObject 108 t = none)
    ∧ (∀ c : Nat, growArray PtrCell.block (c + 1) = some (2 * (c + 1)))
    ∧ (∀ c : Nat, (growArray PtrCell.block (c + 1)).bind (growArray PtrCell.block)
        = some (4 * (c + 1)))
    ∧ (∀ c : Nat, growArray PtrCell.objectBytes c = none)
    ∧ (∀ c : Nat, growBoth c = none) := by
  refine ⟨⟨_, rfl, rfl, rfl, rfl⟩, ?_, ?_, ?_, growBoth_none⟩
  · intro c
    simp [growArray]
    omega
  · intro c
    simp [growArray]
    omega
  · intro c
    unfold growArray
    by_cases h : c = 0
    · simp [h]
    · simp [h]

/-! ## Scene: construction and dirty flags -/

section SceneTheorems

variable {F M G I B : Type}

theorem land_allOnes_of_lt (w b : Nat) (h : b < 2 ^ w) : (2 ^ w - 1) &&& b = b := by
  rw [Nat.land_comm, Nat.and_pow_two_sub_one_eq_mod, Nat.mod_eq_of_lt h]

theorem obdn_CreateScene_eq (k : SceneConsts) (c : Collab F M G I B) (junk : Junk F M G I B)
    (nearClip farClip : F) :
    obdn_CreateScene k c junk nearClip farClip = some
      { dirt := 2 ^ k.flagsWidth - 1
        camera := (sceneBeforeDefaults c junk nearClip farClip).camera
        prims := createTable INIT_PRIM_CAP junk.prims junk.primIndices
        lights := createTable INIT_LIGHT_CAP junk.lights junk.lightIndices
        materials :=
          { objectArray := Function.update junk.materials 0 (defaultMaterial k c 0)
            arrayAlloc := 8
            objectCount := 1
            cap := 8
            map := { indices := Function.update junk.matIndices 0 0, availableIds := [] } }
        textures :=
          { objectArray := Function.update junk.textures 0 c.defaultTexture
            arrayAlloc := 8
            objectCount := 1
            cap := 8
            map := { indices := Function.update junk.texIndices 0 0, availableIds := [] } } } := by
  rfl

theorem modifyObject_some {α : Type} (t t1 : ObjectTable α) (id : Nat) (f : α → α)
    (h : modifyObject t id f = some t1) :
    t1 = { t with objectArray :=
      Function.update t.objectArray (t.map.indices id) (f (t.objectArray (t.map.indices id))) } := by
  unfold modifyObject at h
  split at h
  · exact (Option.some.inj h).symm
  · exact absurd h (by simp)

theorem addPrim_dirt (k : SceneConsts) (s s1 : Scene F M G I B) (prim : Primitive G M)
    (id : Nat) (h : addPrim k s prim = some (id, s1)) :
    s1.dirt = s.dirt ||| k.PRIMS_BIT := by
  unfold addPrim at h
  split at h
  · simp at h
  · simp only [Option.some.injEq, Prod.mk.injEq] at h
    rw [← h.2]

theorem addLight_dirt (k : SceneConsts) (s s1 : Scene F M G I B) (light : Light F)
    (id : Nat) (h : addLight k s light = some (id, s1)) :
    s1.dirt = s.dirt ||| k.LIGHTS_BIT := by
  unfold addLight at h
  split at h
  · simp at h
  · simp only [Option.some.injEq, Prod.mk.injEq] at h
    rw [← h.2]

theorem addTexture_dirt (k : SceneConsts) (s s1 : Scene F M G I B) (texture : Texture I B)
    (id : Nat) (h : addTexture k s texture = some (id, s1)) :
    s1.dirt = s.dirt ||| k.TEXTURES_BIT := by
  unfold addTexture at h
  split at h
  · simp at h
  · simp only [Option.some.injEq, Prod.mk.injEq] at h
    rw [← h.2]

theorem addMaterial_dirt (k : SceneConsts) (s s1 : Scene F M G I B) (material : Material F)
    (id : Nat) (h : addMaterial k s material = some (id, s1)) :
    s1.dirt = s.dirt ||| k.MATERIALS_BIT := by
  unfold addMaterial at h
  split at h
  · simp at h
  · simp only [Option.some.injEq, Prod.mk.injEq] at h
    rw [← h.2]

theorem removePrim_dirt (k : SceneConsts) (c : Collab F M G I B) (s s1 : Scene F M G I B)
    (handle : Nat) (h : removePrim k c s handle = some s1) :
    s1.dirt = s.dirt ||| k.PRIMS_BIT := by
  unfold removePrim at h
  split at h
  · simp at h
  · split at h
    · simp at h
    · split at h
      · simp at h
      · simp only [Option.some.injEq] at h
        rw [← h]

theorem removeLight_dirt (k : SceneConsts) (s s1 : Scene F M G I B)
    (handle : Nat) (h : removeLight k s handle = some s1) :
    s1.dirt = s.dirt ||| k.LIGHTS_BIT := by
  unfold removeLight at h
  split at h
  · simp at h
  · split at h
    · simp at h
    · simp only [Option.some.injEq] at h
      rw [← h]

theorem removeTexture_dirt (k : SceneConsts) (c : Collab F M G I B) (s s1 : Scene F M G I B)
    (handle : Nat) (h : removeTexture k c s handle = some s1) :
    s1.dirt = s.dirt ||| k.TEXTURES_BIT := by
  unfold removeTexture at h
  split at h
  · simp at h
  · split at h
    · simp at h
    · split at h
      · simp at h
      · simp only [Option.some.injEq] at h
        rw [← h]

theorem removeMaterial_dirt (k : SceneConsts) (s s1 : Scene F M G I B)
    (handle : Nat) (h : removeMaterial k s handle = some s1) :
    s1.dirt = s.dirt ||| k.MATERIALS_BIT := by
  unfold removeMaterial at h
  split at h
  · simp at h
  · split at h
    · simp at h
    · simp only [Option.some.injEq] at h
      rw [← h]

theorem obdn_UpdateLight_dirt (k : SceneConsts) (s s1 : Scene F M G I B)
    (handle : Nat) (intensity : F) (h : obdn_UpdateLight k s handle intensity = some s1) :
    s1.dirt = s.dirt ||| k.LIGHTS_BIT := by
  unfold obdn_UpdateLight at h
  split at h
  · simp at h
  · simp only [Option.some.injEq] at h
    rw [← h]

theorem obdn_UpdateLightColor_dirt (k : SceneConsts) (s s1 : Scene F M G I B)
    (handle : Nat) (r g b : F) (h : obdn_UpdateLightColor k s handle r g b = some s1) :
    s1.dirt = s.dirt ||| k.LIGHTS_BIT := by
  unfold obdn_UpdateLightColor at h
  split at h
  · simp at h
  · simp only [Option.some.injEq] at h
    rw [← h]

theorem obdn_UpdateLightPos_dirt (k : SceneConsts) (s s1 : Scene F M G I B)
    (handle : Nat) (x y z : F) (h : obdn_UpdateLightPos k s handle x y z = some s1) :
    s1.dirt = s.dirt ||| k.LIGHTS_BIT := by
  unfold obdn_UpdateLightPos at h
  split at h
  · simp at h
  · simp only [Option.some.injEq] at h
    rw [← h]

theorem obdn_UpdateLightIntensity_dirt (k : SceneConsts) (s s1 : Scene F M G I B)
    (handle : Nat) (i : F) (h : obdn_UpdateLightIntensity k s handle i = some s1) :
    s1.dirt = s.dirt ||| k.LIGHTS_BIT := by
  unfold obdn_UpdateLightIntensity at h
  split at h
  · simp at h
  · simp only [Option.some.injEq] at h
    rw [← h]

theorem obdn_BindPrimToMaterial_dirt (k : SceneConsts) (s s1 : Scene F M G I B)
    (primhandle mathandle : Nat)
    (h : obdn_BindPrimToMaterial k s primhandle mathandle = some s1) :
    s1.dirt = s.dirt ||| k.PRIMS_BIT := by
  unfold obdn_BindPrimToMaterial at h
  split at h
  · simp at h
  · split at h
    · simp at h
    · simp only [Option.some.injEq] at h
      rw [← h]

theorem obdn_UpdatePrimXform_dirt (k : SceneConsts) (c : Collab F M G I B)
    (s s1 : Scene F M G I B) (handle : Nat) (delta : M)
    (h : obdn_UpdatePrimXform k c s handle delta = some s1) :
    s1.dirt = s.dirt ||| k.XFORMS_BIT := by
  unfold obdn_UpdatePrimXform at h
  split at h
  · simp at h
  · simp only [Option.some.injEq] at h
    rw [← h]

/-- The example scene is what the scene functions build: create, add a
primitive, add a light, clear the dirty flags. -/
theorem exampleScene_built :
    obdn_CreateScene exampleConsts unitCollab unitJunk () () = some createdScene
    ∧ ∃ s1 s2, addPrim exampleConsts createdScene examplePrim = some (0, s1)
      ∧ addLight exampleConsts s1 exampleLight = some (0, s2)
      ∧ obdn_SceneClearDirt s2 = exampleScene :=
  ⟨rfl, _, _, rfl, rfl, rfl⟩

/-- C7 (a created scene is all dirty): for every near and far clip (and all
constants that fit the flags type, collaborators and uninitialised memory)
`obdn_CreateScene` returns a scene whose `obdn_GetSceneDirt` is the all-ones
bitset of the flags type, so the prims, lights, materials, textures, camera-view
and camera-projection bits are all set. -/
theorem obdn_CreateScene_all_dirty (k : SceneConsts) (c : Collab F M G I B)
    (junk : Junk F M G I B) (nearClip farClip : F) (hfit : k.Fits) :
    ∃ s, obdn_CreateScene k c junk nearClip farClip = some s
      ∧ obdn_GetSceneDirt s = 2 ^ k.flagsWidth - 1
      ∧ obdn_GetSceneDirt s &&& k.PRIMS_BIT = k.PRIMS_BIT
      ∧ obdn_GetSceneDirt s &&& k.LIGHTS_BIT = k.LIGHTS_BIT
      ∧ obdn_GetSceneDirt s &&& k.MATERIALS_BIT = k.MATERIALS_BIT
      ∧ obdn_GetSceneDirt s &&& k.TEXTURES_BIT = k.TEXTURES_BIT
      ∧ obdn_GetSceneDirt s &&& k.CAMERA_VIEW_BIT = k.CAMERA_VIEW_BIT
      ∧ obdn_GetSceneDirt s &&& k.CAMERA_PROJ_BIT = k.CAMERA_PROJ_BIT := by
  obtain ⟨h1, h2, h3, h4, h5, h6⟩ := hfit
  exact ⟨_, obdn_CreateScene_eq k c junk nearClip farClip, rfl,
    land_allOnes_of_lt _ _ h1, land_allOnes_of_lt _ _ h2, land_allOnes_of_lt _ _ h3,
    land_allOnes_of_lt _ _ h4, land_allOnes_of_lt _ _ h5, land_allOnes_of_lt _ _ h6⟩

/-- The witness of C7: the example constants fit an 8-bit flags type and the
created scene reports 255. -/
theorem obdn_CreateScene_all_dirty_witness :
    exampleConsts.Fits
    ∧ ∃ s, obdn_CreateScene exampleConsts unitCollab unitJunk () () = some s
      ∧ obdn_GetSceneDirt s = 255
      ∧ obdn_GetSceneDirt s &&& 64 = 64
      ∧ obdn_GetSceneDirt s &&& 4 = 4
      ∧ obdn_GetSceneDirt s &&& 16 = 16
      ∧ obdn_GetSceneDirt s &&& 32 = 32
      ∧ obdn_GetSceneDirt s &&& 1 = 1
      ∧ obdn_GetSceneDirt s &&& 2 = 2 :=
  ⟨by unfold SceneConsts.Fits; decide,
   obdn_CreateScene_all_dirty exampleConsts unitCollab unitJunk () ()
     (by unfold SceneConsts.Fits; decide)⟩

/-- C8 (dirty propagation is exact and monotone): for every scene and each of
the mutating operations (add and remove of a primitive, light, material or
texture, the four light updates, the binding of a primitive to a material and
the three camera setters), whenever the operation completes the dirty bitset
afterwards is the bitset before OR-ed with the bit of that operation's category,
and `obdn_SceneClearDirt` leaves the bitset equal to 0. -/
theorem dirt_propagation_exact (k : SceneConsts) (c : Collab F M G I B)
    (s : Scene F M G I B) :
    (∀ prim id s1, addPrim k s prim = some (id, s1) →
        obdn_GetSceneDirt s1 = obdn_GetSceneDirt s ||| k.PRIMS_BIT)
    ∧ (∀ light id s1, addLight k s light = some (id, s1) →
        obdn_GetSceneDirt s1 = obdn_GetSceneDirt s ||| k.LIGHTS_BIT)
    ∧ (∀ material id s1, addMaterial k s material = some (id, s1) →
        obdn_GetSceneDirt s1 = obdn_GetSceneDirt s ||| k.MATERIALS_BIT)
    ∧ (∀ texture id s1, addTexture k s texture = some (id, s1) →
        obdn_GetSceneDirt s1 = obdn_GetSceneDirt s ||| k.TEXTURES_BIT)
    ∧ (∀ handle s1, removePrim k c s handle = some s1 →
        obdn_GetSceneDirt s1 = obdn_GetSceneDirt s ||| k.PRIMS_BIT)
    ∧ (∀ handle s1, removeLight k s handle = some s1 →
        obdn_GetSceneDirt s1 = obdn_GetSceneDirt s ||| k.LIGHTS_BIT)
    ∧ (∀ handle s1, removeMaterial k s handle = some s1 →
        obdn_GetSceneDirt s1 = obdn_GetSceneDirt s ||| k.MATERIALS_BIT)
    ∧ (∀ handle s1, removeTexture k c s handle = some s1 →
        obdn_GetSceneDirt s1 = obdn_GetSceneDirt s ||| k.TEXTURES_BIT)
    ∧ (∀ handle intensity s1, obdn_UpdateLight k s handle intensity = some s1 →
        obdn_GetSceneDirt s1 = obdn_GetSceneDirt s ||| k.LIGHTS_BIT)
    ∧ (∀ handle r g b s1, obdn_UpdateLightColor k s handle r g b = some s1 →
        obdn_GetSceneDirt s1 = obdn_GetSceneDirt s ||| k.LIGHTS_BIT)
    ∧ (∀ handle x y z s1, obdn_UpdateLightPos k s handle x y z = some s1 →
        obdn_GetSceneDirt s1 = obdn_GetSceneDirt s ||| k.LIGHTS_BIT)
    ∧ (∀ handle i s1, obdn_UpdateLightIntensity k s handle i = some s1 →
        obdn_GetSceneDirt s1 = obdn_GetSceneDirt s ||| k.LIGHTS_BIT)
    ∧ (∀ primhandle mathandle s1,
        obdn_BindPrimToMaterial k s primhandle mathandle = some s1 →
        obdn_GetSceneDirt s1 = obdn_GetSceneDirt s ||| k.PRIMS_BIT)
    ∧ (∀ pos target up, obdn_GetSceneDirt (obdn_UpdateCamera_LookAt k c s pos target up)
        = obdn_GetSceneDirt s ||| k.CAMERA_VIEW_BIT)
    ∧ (∀ m, obdn_GetSceneDirt (obdn_SceneSetCameraView k s m)
        = obdn_GetSceneDirt s ||| k.CAMERA_VIEW_BIT)
    ∧ (∀ m, obdn_GetSceneDirt (obdn_SceneSetCameraProjection k s m)
        = obdn_GetSceneDirt s ||| k.CAMERA_PROJ_BIT)
    ∧ obdn_GetSceneDirt (obdn_SceneClearDirt s) = 0 :=
  ⟨fun prim id s1 h => addPrim_dirt k s s1 prim id h,
   fun light id s1 h => addLight_dirt k s s1 light id h,
   fun material id s1 h => addMaterial_dirt k s s1 material id h,
   fun texture id s1 h => addTexture_dirt k s s1 texture id h,
   fun handle s1 h => removePrim_dirt k c s s1 handle h,
   fun handle s1 h => removeLight_dirt k s s1 handle h,
   fun handle s1 h => removeMaterial_dirt k s s1 handle h,
   fun handle s1 h => removeTexture_dirt k c s s1 handle h,
   fun handle intensity s1 h => obdn_UpdateLight_dirt k s s1 handle intensity h,
   fun handle r g b s1 h => obdn_UpdateLightColor_dirt k s s1 handle r g b h,
   fun handle x y z s1 h => obdn_UpdateLightPos_dirt k s s1 handle x y z h,
   fun handle i s1 h => obdn_UpdateLightIntensity_dirt k s s1 handle i h,
   fun primhandle mathandle s1 h => obdn_BindPrimToMaterial_dirt k s s1 primhandle mathandle h,
   fun _ _ _ => rfl, fun _ => rfl, fun _ => rfl, rfl⟩

/-- The witness of C8: on the example scene, whose dirty flags are clear, every
one of the operations completes and leaves exactly the bit of its category
(prims 64, lights 4, materials 16, textures 32, camera view 1, camera
projection 2). -/
theorem dirt_propagation_exact_witness :
    (∃ id s1, addPrim exampleConsts exampleScene examplePrim = some (id, s1)
        ∧ obdn_GetSceneDirt s1 = 64)
    ∧ (∃ id s1, addLight exampleConsts exampleScene exampleLight = some (id, s1)
        ∧ obdn_GetSceneDirt s1 = 4)
    ∧ (∃ id s1, addMaterial exampleConsts exampleScene ⟨⟨(), (), ()⟩, (), 0, 0, 0⟩
          = some (id, s1)
        ∧ obdn_GetSceneDirt s1 = 16)
    ∧ (∃ id s1, addTexture exampleConsts exampleScene ⟨(), ()⟩ = some (id, s1)
        ∧ obdn_GetSceneDirt s1 = 32)
    ∧ (∃ s1, removePrim exampleConsts unitCollab exampleScene 0 = some s1
        ∧ obdn_GetSceneDirt s1 = 64)
    ∧ (∃ s1, removeLight exampleConsts exampleScene 0 = some s1
        ∧ obdn_GetSceneDirt s1 = 4)
    ∧ (∃ s1, removeMaterial exampleConsts exampleScene 0 = some s1
        ∧ obdn_GetSceneDirt s1 = 16)
    ∧ (∃ s1, removeTexture exampleConsts unitCollab exampleScene 0 = some s1
        ∧ obdn_GetSceneDirt s1 = 32)
    ∧ (∃ s1, obdn_UpdateLight exampleConsts exampleScene 0 () = some s1
        ∧ obdn_GetSceneDirt s1 = 4)
    ∧ (∃ s1, obdn_UpdateLightColor exampleConsts exampleScene 0 () () () = some s1
        ∧ obdn_GetSceneDirt s1 = 4)
    ∧ (∃ s1, obdn_UpdateLightPos exampleConsts exampleScene 0 () () () = some s1
        ∧ obdn_GetSceneDirt s1 = 4)
    ∧ (∃ s1, obdn_UpdateLightIntensity exampleConsts exampleScene 0 () = some s1
        ∧ obdn_GetSceneDirt s1 = 4)
    ∧ (∃ s1, obdn_BindPrimToMaterial exampleConsts exampleScene 0 0 = some s1
        ∧ obdn_GetSceneDirt s1 = 64)
    ∧ obdn_GetSceneDirt (obdn_UpdateCamera_LookAt exampleConsts unitCollab exampleScene
        ⟨(), (), ()⟩ ⟨(), (), ()⟩ ⟨(), (), ()⟩) = 1
    ∧ obdn_GetSceneDirt (obdn_SceneSetCameraView exampleConsts exampleScene ()) = 1
    ∧ obdn_GetSceneDirt (obdn_SceneSetCameraProjection exampleConsts exampleScene ()) = 2
    ∧ obdn_GetSceneDirt (obdn_SceneClearDirt createdScene) = 0 := by
  obtain ⟨h1, h2, h3, h4, h5, h6, h7, h8, h9, h10, h11, h12, h13, h14, h15, h16, _⟩ :=
    dirt_propagation_exact exampleConsts unitCollab exampleScene
  obtain ⟨_, _, _, _, _, _, _, _, _, _, _, _, _, _, _, _, h17⟩ :=
    dirt_propagation_exact exampleConsts unitCollab createdScene
  refine ⟨⟨_, _, rfl, h1 _ _ _ rfl⟩, ⟨_, _, rfl, h2 _ _ _ rfl⟩, ⟨_, _, rfl, h3 _ _ _ rfl⟩,
    ⟨_, _, rfl, h4 _ _ _ rfl⟩, ?_, ?_, ?_, ?_, ?_, ?_, ?_, ?_, ?_,
    h14 _ _ _, h15 _, h16 _, h17⟩
  · obtain ⟨s1, hs⟩ : ∃ s1, removePrim exampleConsts unitCollab exampleScene 0 = some s1 :=
      ⟨_, rfl⟩
    exact ⟨s1, hs, (h5 _ _ hs).trans rfl⟩
  · obtain ⟨s1, hs⟩ : ∃ s1, removeLight exampleConsts exampleScene 0 = some s1 := ⟨_, rfl⟩
    exact ⟨s1, hs, (h6 _ _ hs).trans rfl⟩
  · obtain ⟨s1, hs⟩ : ∃ s1, removeMaterial exampleConsts exampleScene 0 = some s1 := ⟨_, rfl⟩
    exact ⟨s1, hs, (h7 _ _ hs).trans rfl⟩
  · obtain ⟨s1, hs⟩ : ∃ s1, removeTexture exampleConsts unitCollab exampleScene 0 = some s1 :=
      ⟨_, rfl⟩
    exact ⟨s1, hs, (h8 _ _ hs).trans rfl⟩
  · obtain ⟨s1, hs⟩ : ∃ s1, obdn_UpdateLight exampleConsts exampleScene 0 () = some s1 :=
      ⟨_, rfl⟩
    exact ⟨s1, hs, (h9 _ _ _ hs).trans rfl⟩
  · obtain ⟨s1, hs⟩ :
        ∃ s1, obdn_UpdateLightColor exampleConsts exampleScene 0 () () () = some s1 :=
      ⟨_, rfl⟩
    exact ⟨s1, hs, (h10 _ _ _ _ _ hs).trans rfl⟩
  · obtain ⟨s1, hs⟩ :
        ∃ s1, obdn_UpdateLightPos exampleConsts exampleScene 0 () () () = some s1 :=
      ⟨_, rfl⟩
    exact ⟨s1, hs, (h11 _ _ _ _ _ hs).trans rfl⟩
  · obtain ⟨s1, hs⟩ :
        ∃ s1, obdn_UpdateLightIntensity exampleConsts exampleScene 0 () = some s1 :=
      ⟨_, rfl⟩
    exact ⟨s1, hs, (h12 _ _ _ hs).trans rfl⟩
  · obtain ⟨s1, hs⟩ :
        ∃ s1, obdn_BindPrimToMaterial exampleConsts exampleScene 0 0 = some s1 :=
      ⟨_, rfl⟩
    exact ⟨s1, hs, (h13 _ _ _ hs).trans rfl⟩

/-- C10 (scene construction state): `obdn_CreateScene` adds the default texture
under handle id 0 and creates the default material on it under handle id 0, and
the scene it returns has capacities 16, 8, 8 and 8 for primitives, lights,
materials and textures, no primitive and no light, one texture and one
material; ids 0 of both are live (at position 0, below the count, and not on
the stack of available ids), material id 0 resolves to the default material,
whose albedo texture is handle id 0, and texture id 0 resolves to the default
texture at position 0. -/
theorem obdn_CreateScene_state (k : SceneConsts) (c : Collab F M G I B)
    (junk : Junk F M G I B) (nearClip farClip : F) :
    ∃ s1 s2 s,
      addTexture k (sceneBeforeDefaults c junk nearClip farClip) c.defaultTexture
        = some (0, s1)
      ∧ obdn_SceneCreateMaterial k s1
          ⟨c.ofDecimal 0 0, c.ofDecimal 937 3, c.ofDecimal 10 1⟩ (c.ofDecimal 8 1)
          0 k.NULL_TEXTURE k.NULL_TEXTURE = some (0, s2)
      ∧ obdn_CreateScene k c junk nearClip farClip = some s
      ∧ s.primCapacity = 16 ∧ s.lightCapacity = 8
      ∧ s.materialCapacity = 8 ∧ s.textureCapacity = 8
      ∧ s.primCount = 0 ∧ s.lightCount = 0
      ∧ s.textureCount = 1 ∧ s.materialCount = 1
      ∧ s.materials.map.indices 0 = 0 ∧ s.materials.map.indices 0 < s.materialCount
      ∧ s.materials.map.availableIds = []
      ∧ resolve s.materials 0 = defaultMaterial k c 0
      ∧ (resolve s.materials 0).textureAlbedo = 0
      ∧ s.textures.map.indices 0 = 0 ∧ s.textures.map.indices 0 < s.textureCount
      ∧ s.textures.map.availableIds = []
      ∧ resolve s.textures 0 = c.defaultTexture
      ∧ resolve s.textures (resolve s.materials 0).textureAlbedo = c.defaultTexture :=
  ⟨_, _, _, rfl, rfl, obdn_CreateScene_eq k c junk nearClip farClip, rfl, rfl, rfl, rfl,
   rfl, rfl, rfl, rfl, rfl, Nat.zero_lt_one, rfl, rfl, rfl, rfl, Nat.zero_lt_one, rfl, rfl,
   rfl⟩

end SceneTheorems

/-! ## Alignment -/

theorem obdn_GetAligned_eq (q a : Nat) (ha : 0 < a)
    (hfit : (q / a + 1) * a ≤ 2 ^ 64 - 1) :
    obdn_GetAligned q a = some (if q % a = 0 then q else (q / a + 1) * a) := by
  unfold obdn_GetAligned
  have ha0 : a ≠ 0 := by omega
  by_cases h : q % a = 0
  · simp [ha0, h]
  · have hlt : (q / a + 1) * a < 2 ^ 64 := by omega
    rw [if_neg ha0, if_pos h, if_neg h, Nat.mod_eq_of_lt hlt]

/-- C17 (`obdn_GetAligned` rounds up to the alignment): for a 64-bit quantity
`q` and a 32-bit alignment `a > 0` with `(q / a + 1) * a` at most `2^64 - 1`,
the call returns a result `r` that is a multiple of `a` with `q ≤ r < q + a`, is
the least multiple of `a` that is at least `q`, equals `q` exactly when `q` is a
multiple of `a`, and is returned again when aligned a second time. -/
theorem obdn_GetAligned_rounds_up (q a : Nat) (hq : q < 2 ^ 64) (ha32 : a < 2 ^ 32)
    (ha : 0 < a) (hfit : (q / a + 1) * a ≤ 2 ^ 64 - 1) :
    ∃ r, obdn_GetAligned q a = some r
      ∧ r % a = 0 ∧ q ≤ r ∧ r < q + a
      ∧ (∀ m, m % a = 0 → q ≤ m → r ≤ m)
      ∧ (r = q ↔ q % a = 0)
      ∧ obdn_GetAligned r a = some r := by
  have hdm := Nat.div_add_mod q a
  have hmod := Nat.mod_lt q ha
  have hmul : (q / a + 1) * a = a * (q / a) + a := by ring
  refine ⟨_, obdn_GetAligned_eq q a ha hfit, ?_⟩
  by_cases h : q % a = 0
  · rw [if_pos h]
    refine ⟨h, le_refl _, by omega, fun m _ hm => hm, by simp [h], ?_⟩
    unfold obdn_GetAligned
    simp [Nat.ne_of_gt ha, h]
  · rw [if_neg h]
    have hr : (q / a + 1) * a % a = 0 := Nat.mul_mod_left _ _
    refine ⟨hr, by omega, by omega, ?_, ?_, ?_⟩
    · intro m hm hqm
      obtain ⟨d, hd⟩ := Nat.dvd_of_mod_eq_zero hm
      subst hd
      have hlt : q / a < d := by
        by_contra hcon
        have hle : d ≤ q / a := by omega
        have : a * d ≤ a * (q / a) := Nat.mul_le_mul_left a hle
        omega
      calc (q / a + 1) * a ≤ d * a := Nat.mul_le_mul_right a hlt
        _ = a * d := Nat.mul_comm d a
    · constructor
      · intro he
        omega
      · intro h0
        exact absurd h0 h
    · unfold obdn_GetAligned
      simp [Nat.ne_of_gt ha, hr]

/-- The witness of C17: aligning 10 to 4 gives 12. -/
theorem obdn_GetAligned_rounds_up_witness :
    ∃ r, obdn_GetAligned 10 4 = some r
      ∧ r % 4 = 0 ∧ 10 ≤ r ∧ r < 10 + 4
      ∧ (∀ m, m % 4 = 0 → 10 ≤ m → r ≤ m)
      ∧ (r = 10 ↔ 10 % 4 = 0)
      ∧ obdn_GetAligned r 4 = some r :=
  obdn_GetAligned_rounds_up 10 4 (by decide) (by decide) (by decide) (by decide)

/-! ## Scene: texture loading, teardown, direct access -/

section SceneTheorems2

variable {F M G I B P : Type}

theorem textureFormat_none (channelCount : Nat) (h1 : channelCount ≠ 1)
    (h3 : channelCount ≠ 3) (h4 : channelCount ≠ 4) : textureFormat channelCount = none := by
  unfold textureFormat
  split
  · exact absurd rfl h1
  · exact absurd rfl h3
  · exact absurd rfl h4
  · rfl

theorem addTexture_eq (k : SceneConsts) (s : Scene F M G I B) (texture : Texture I B)
    (hcap : s.textures.objectCount < s.textures.cap)
    (hslot : s.textures.objectCount < s.textures.arrayAlloc) :
    addTexture k s texture = some ((takeId s.textures.objectCount s.textures.map.availableIds).1,
      { s with
        textures :=
          { objectArray := Function.update s.textures.objectArray s.textures.objectCount texture
            arrayAlloc := s.textures.arrayAlloc
            objectCount := s.textures.objectCount + 1
            cap := s.textures.cap
            map :=
              { indices := Function.update s.textures.map.indices
                  (takeId s.textures.objectCount s.textures.map.availableIds).1
                  s.textures.objectCount
                availableIds := (takeId s.textures.objectCount s.textures.map.availableIds).2 } }
        dirt := s.dirt ||| k.TEXTURES_BIT }) := by
  unfold addTexture
  rw [addSceneObject_eq texture s.textures hcap hslot]

theorem addTexture_some (k : SceneConsts) (s s1 : Scene F M G I B) (texture : Texture I B)
    (id : Nat) (h : addTexture k s texture = some (id, s1)) :
    s.textures.objectCount < s.textures.cap
    ∧ s.textures.objectCount < s.textures.arrayAlloc := by
  unfold addTexture at h
  split at h
  · exact absurd h (by simp)
  · rename_i id2 t2 hadd
    exact (addSceneObject_isSome_iff texture s.textures).1 ⟨_, hadd⟩

/-- C11 (an unsupported texture format is a recoverable no-op): for every scene
and every channel count other than 1, 3 and 4 `obdn_LoadTexture` returns
`NULL_TEXTURE` and the scene as it was.  For a channel count of 1, 3 or 4,
whenever the call completes it has inserted exactly one texture, the loaded one:
the texture count has grown by one, the returned handle resolves to the loaded
texture, the textures below the old count and the other tables are as before,
and the textures bit is OR-ed into the dirty bitset; and the call completes on
every scene whose texture table is not full and has its next slot inside the
texture array. -/
theorem obdn_LoadTexture_unsupported_is_noop (k : SceneConsts) (ld : ImageLoader I B P)
    (s : Scene F M G I B) (filePath : P) (channelCount : Nat) :
    (channelCount ≠ 1 → channelCount ≠ 3 → channelCount ≠ 4 →
      obdn_LoadTexture k ld s filePath channelCount = some (k.NULL_TEXTURE, s))
    ∧ (channelCount = 1 ∨ channelCount = 3 ∨ channelCount = 4 →
        ∀ id s1, obdn_LoadTexture k ld s filePath channelCount = some (id, s1) →
        ∃ format, textureFormat channelCount = some format
          ∧ s1.textureCount = s.textureCount + 1
          ∧ resolve s1.textures id
              = { devImage := ld.loadImage filePath channelCount format
                  hostBuffer := ld.zeroBuffer }
          ∧ (∀ j, j < s.textureCount → s1.textures.objectArray j = s.textures.objectArray j)
          ∧ s1.prims = s.prims ∧ s1.lights = s.lights ∧ s1.materials = s.materials
          ∧ s1.camera = s.camera
          ∧ obdn_GetSceneDirt s1 = obdn_GetSceneDirt s ||| k.TEXTURES_BIT)
    ∧ (channelCount = 1 ∨ channelCount = 3 ∨ channelCount = 4 →
        s.textures.objectCount < s.textures.cap →
        s.textures.objectCount < s.textures.arrayAlloc →
        ∃ id s1, obdn_LoadTexture k ld s filePath channelCount = some (id, s1)) := by
  have hfmt : channelCount = 1 ∨ channelCount = 3 ∨ channelCount = 4 →
      ∃ format, textureFormat channelCount = some format := by
    intro hch
    rcases hch with h | h | h
    · exact ⟨VkFormat.R8_UNORM, by rw [h]; rfl⟩
    · exact ⟨VkFormat.R8G8B8A8_UNORM, by rw [h]; rfl⟩
    · exact ⟨VkFormat.R8G8B8A8_UNORM, by rw [h]; rfl⟩
  have hload : ∀ format, textureFormat channelCount = some format →
      obdn_LoadTexture k ld s filePath channelCount
        = addTexture k s
            { devImage := ld.loadImage filePath channelCount format
              hostBuffer := ld.zeroBuffer } := by
    intro format hf
    unfold obdn_LoadTexture
    rw [hf]
  refine ⟨?_, ?_, ?_⟩
  · intro h1 h3 h4
    unfold obdn_LoadTexture
    rw [textureFormat_none channelCount h1 h3 h4]
  · intro hch id s1 h
    obtain ⟨format, hf⟩ := hfmt hch
    rw [hload format hf] at h
    obtain ⟨hcap, hslot⟩ := addTexture_some k s s1 _ id h
    rw [addTexture_eq k s _ hcap hslot] at h
    simp only [Option.some.injEq, Prod.mk.injEq] at h
    obtain ⟨hid, hs1⟩ := h
    subst hs1
    subst hid
    refine ⟨format, hf, rfl, ?_, ?_, rfl, rfl, rfl, rfl, rfl⟩
    · show Function.update _ _ _ (Function.update _ _ _ _) = _
      rw [Function.update_same, Function.update_same]
    · intro j hj
      have hne : j ≠ s.textures.objectCount := Nat.ne_of_lt hj
      simp [Function.update_noteq hne]
  · intro hch hcap hslot
    obtain ⟨format, hf⟩ := hfmt hch
    exact ⟨_, _, (hload format hf).trans (addTexture_eq k s _ hcap hslot)⟩

/-- The witness of C11: on the example scene two channels are refused and the
scene is returned as it was; four channels complete and insert one texture. -/
theorem obdn_LoadTexture_unsupported_is_noop_witness :
    obdn_LoadTexture exampleConsts unitLoader exampleScene () 2
        = some (exampleConsts.NULL_TEXTURE, exampleScene)
    ∧ ∃ id s1, obdn_LoadTexture exampleConsts unitLoader exampleScene () 4 = some (id, s1)
      ∧ ∃ format, textureFormat 4 = some format
        ∧ s1.textureCount = exampleScene.textureCount + 1
        ∧ resolve s1.textures id
            = { devImage := unitLoader.loadImage () 4 format
                hostBuffer := unitLoader.zeroBuffer }
        ∧ (∀ j, j < exampleScene.textureCount →
            s1.textures.objectArray j = exampleScene.textures.objectArray j)
        ∧ s1.prims = exampleScene.prims ∧ s1.lights = exampleScene.lights
        ∧ s1.materials = exampleScene.materials
        ∧ s1.camera = exampleScene.camera
        ∧ obdn_GetSceneDirt s1
            = obdn_GetSceneDirt exampleScene ||| exampleConsts.TEXTURES_BIT := by
  obtain ⟨h1, _, _⟩ := obdn_LoadTexture_unsupported_is_noop exampleConsts unitLoader
    exampleScene () 2
  obtain ⟨_, h2, h3⟩ := obdn_LoadTexture_unsupported_is_noop exampleConsts unitLoader
    exampleScene () 4
  obtain ⟨id, s1, hs⟩ := h3 (by decide) (by decide) (by decide)
  exact ⟨h1 (by decide) (by decide) (by decide), id, s1, hs, h2 (by decide) id s1 hs⟩

/-- C12 (teardown completeness), evaluated on the scene that `obdn_CreateScene`
returns, which holds one texture (the default one, at position 0), and on the
example scene, which holds one primitive more: `obdn_CleanUpScene` calls
`obdn_FreeGeo` once on each primitive position below `primCount`, but its only
`obdn_FreeImage` call is on texture position 1, which is `textureCount`, outside
the live range; the default texture at position 0 is not released. -/
theorem obdn_CleanUpScene_texture_loop_off_by_one :
    createdScene.primCount = 0 ∧ createdScene.textureCount = 1
    ∧ obdn_CleanUpScene unitLoader createdScene = some [ReleaseCall.freeImage 1]
    ∧ exampleScene.primCount = 1 ∧ exampleScene.textureCount = 1
    ∧ obdn_CleanUpScene unitLoader exampleScene
        = some [ReleaseCall.freeGeo 0, ReleaseCall.freeImage 1]
    ∧ ReleaseCall.freeImage 0 ∉ [ReleaseCall.freeGeo 0, ReleaseCall.freeImage 1] :=
  ⟨rfl, rfl, rfl, rfl, rfl, rfl, by decide⟩

/-- C15 (the direct-index geometry query), evaluated: in a scene whose position 0
holds three vertices and whose position 1 holds none,
`obdn_SceneHasGeoDirect` answers true for index 1; and after position 0 was
given an empty geometry and position 1 a geometry of five vertices by
`obdn_SceneSetGeoDirect`, it answers false for index 1. -/
theorem obdn_SceneHasGeoDirect_ignores_index :
    twoPrimScene.primCount = 2
    ∧ (twoPrimScene.prims.objectArray 0).geo.vertexCount = 3
    ∧ (twoPrimScene.prims.objectArray 1).geo.vertexCount = 0
    ∧ obdn_SceneHasGeoDirect twoPrimScene 1 = some true
    ∧ ∃ s1 s2, obdn_SceneSetGeoDirect exampleConsts twoPrimScene ⟨0, ()⟩ 0 = some s1
      ∧ obdn_SceneSetGeoDirect exampleConsts s1 ⟨5, ()⟩ 1 = some s2
      ∧ (s2.prims.objectArray 1).geo.vertexCount = 5
      ∧ obdn_SceneHasGeoDirect s2 1 = some false :=
  ⟨rfl, rfl, rfl, rfl, _, _, rfl, rfl, rfl, rfl⟩

end SceneTheorems2

/-! ## Object tables: bookkeeping of ids -/

theorem addSceneObject_some {α : Type} (v : α) (t t1 : ObjectTable α) (id : Nat)
    (h : addSceneObject v t = some (id, t1)) :
    id = (takeId t.objectCount t.map.availableIds).1
    ∧ t1.map.availableIds = (takeId t.objectCount t.map.availableIds).2
    ∧ t1.objectCount = t.objectCount + 1
    ∧ t.objectCount < t.cap ∧ t.objectCount < t.arrayAlloc
    ∧ t1.cap = t.cap ∧ t1.arrayAlloc = t.arrayAlloc
    ∧ t1.map.indices = Function.update t.map.indices id t.objectCount := by
  obtain ⟨hcap, hslot⟩ := (addSceneObject_isSome_iff v t).1 ⟨_, h⟩
  rw [addSceneObject_eq v t hcap hslot] at h
  simp only [Option.some.injEq, Prod.mk.injEq] at h
  obtain ⟨hid, ht⟩ := h
  subst ht
  subst hid
  exact ⟨rfl, rfl, rfl, hcap, hslot, rfl, rfl, rfl⟩

theorem removeSceneObject_some {α : Type} (id : Nat) (t t1 : ObjectTable α)
    (h : removeSceneObject id t = some t1) :
    t.map.indices id < t.objectCount
    ∧ t1.objectCount = t.objectCount - 1
    ∧ t1.map.availableIds = id :: t.map.availableIds
    ∧ t1.cap = t.cap ∧ t1.arrayAlloc = t.arrayAlloc := by
  unfold removeSceneObject at h
  simp only at h
  split at h
  · simp at h
  · rename_i hsrc
    split at h
    · simp at h
    · simp only [Option.some.injEq] at h
      subst h
      exact ⟨by omega, rfl, rfl, rfl, rfl⟩

theorem Bookkeeping_fresh {α : Type} (initCap : Nat) (junkObjects : Nat → α)
    (junk : Nat → Nat) : Bookkeeping (createTable initCap junkObjects junk) [] := by
  refine ⟨List.nodup_nil, List.nodup_nil, ?_, ?_, rfl, ?_, ?_⟩
  · intro x hx
    simp at hx
  · intro x
    simp [createTable, createObjectMap]
  · simp [createTable, createObjectMap]
  · simp [createTable, createObjectMap]

theorem Bookkeeping_insert {α : Type} (v : α) (t t1 : ObjectTable α) (live : List Nat)
    (id : Nat) (hb : Bookkeeping t live) (h : addSceneObject v t = some (id, t1)) :
    id ∉ live ∧ Bookkeeping t1 (id :: live) := by
  obtain ⟨hl, hs, hdis, hun, hlen, hcap, halloc⟩ := hb
  obtain ⟨hid, hst, hcnt, hc1, ha1, hceq, haeq, _⟩ := addSceneObject_some v t t1 id h
  cases hstack : t.map.availableIds with
  | nil =>
    rw [hstack] at hid hst hs hdis hun hcap halloc
    simp only [takeId] at hid hst
    simp only [List.length_nil, Nat.add_zero, List.not_mem_nil, or_false] at hun hcap halloc
    have hnot : id ∉ live := by
      intro hmem
      have := (hun id).1 hmem
      omega
    refine ⟨hnot, List.nodup_cons.2 ⟨hnot, hl⟩, ?_, ?_, ?_, ?_, ?_, ?_⟩
    · rw [hst]
      exact List.nodup_nil
    · intro x _
      rw [hst]
      simp
    · intro x
      rw [hst, hcnt]
      simp only [List.mem_cons, List.not_mem_nil, or_false, List.length_nil, Nat.add_zero]
      rw [hun x]
      omega
    · simp [hlen, hcnt]
    · rw [hst, hcnt]
      simp only [List.length_nil]
      omega
    · rw [hst, hcnt]
      simp only [List.length_nil]
      omega
  | cons top rest =>
    rw [hstack] at hid hst hs hdis hun hcap halloc
    simp only [takeId] at hid hst
    simp only [List.length_cons] at hun hcap halloc
    obtain ⟨htop, hrest⟩ := List.nodup_cons.1 hs
    have hnot : id ∉ live := by
      intro hmem
      exact hdis id hmem (by rw [hid]; exact List.mem_cons_self _ _)
    have hne : t.objectCount ≠ t.cap := by omega
    refine ⟨hnot, List.nodup_cons.2 ⟨hnot, hl⟩, ?_, ?_, ?_, ?_, ?_, ?_⟩
    · rw [hst]
      exact hrest
    · intro x hx
      rw [hst]
      rcases List.mem_cons.1 hx with hx | hx
      · rw [hx, hid]
        exact htop
      · intro hr
        exact hdis x hx (List.mem_cons_of_mem _ hr)
    · intro x
      rw [hst, hcnt, hid]
      have := hun x
      simp only [List.mem_cons] at this ⊢
      constructor
      · intro hx
        have h2 : x ∈ live ∨ x = top ∨ x ∈ rest := by tauto
        have := this.1 h2
        omega
      · intro hx
        have h2 := this.2 (by omega)
        tauto
    · simp [hlen, hcnt]
    · rw [hst, hcnt]
      omega
    · rw [hst, hcnt, haeq]
      omega

theorem Bookkeeping_remove {α : Type} (t t1 : ObjectTable α) (live : List Nat)
    (id : Nat) (hb : Bookkeeping t live) (hlive : id ∈ live)
    (h : removeSceneObject id t = some t1) : Bookkeeping t1 (live.erase id) := by
  obtain ⟨hl, hs, hdis, hun, hlen, hcap, halloc⟩ := hb
  obtain ⟨hidx, hcnt, hst, hc, ha⟩ := removeSceneObject_some id t t1 h
  have hpos : 0 < t.objectCount := by omega
  refine ⟨hl.erase id, ?_, ?_, ?_, ?_, ?_, ?_⟩
  · rw [hst]
    exact List.nodup_cons.2 ⟨hdis id hlive, hs⟩
  · intro x hx
    rw [hst]
    have hx2 := (hl.mem_erase_iff).1 hx
    intro hmem
    rcases List.mem_cons.1 hmem with hm | hm
    · exact hx2.1 hm
    · exact hdis x hx2.2 hm
  · intro x
    rw [hst, hcnt]
    have := hun x
    simp only [List.mem_cons, List.length_cons, hl.mem_erase_iff] at this ⊢
    constructor
    · intro hx
      have h2 : x ∈ live ∨ x ∈ t.map.availableIds := by
        rcases hx with hx | hx | hx
        · exact Or.inl hx.2
        · rw [hx]
          exact Or.inl hlive
        · exact Or.inr hx
      have := this.1 h2
      omega
    · intro hx
      have h2 := this.2 (by omega)
      by_cases hxe : x = id
      · exact Or.inr (Or.inl hxe)
      · rcases h2 with h2 | h2
        · exact Or.inl ⟨hxe, h2⟩
        · exact Or.inr (Or.inr h2)
  · rw [List.length_erase_of_mem hlive, hlen, hcnt]
  · rw [hst, hcnt, hc]
    simp only [List.length_cons]
    omega
  · rw [hst, hcnt, ha]
    simp only [List.length_cons]
    omega

theorem Bookkeeping_runLive {α : Type} (ops : List (TableOp α)) :
    ∀ (t t1 : ObjectTable α) (live live1 : List Nat), Bookkeeping t live →
      runLive t live ops = some (t1, live1) → Bookkeeping t1 live1 := by
  induction ops with
  | nil =>
    intro t t1 live live1 hb h
    simp only [runLive, Option.some.injEq, Prod.mk.injEq] at h
    rw [← h.1, ← h.2]
    exact hb
  | cons op ops ih =>
    intro t t1 live live1 hb h
    cases op with
    | insert v =>
      simp only [runLive] at h
      split at h
      · simp at h
      · rename_i id t2 hadd
        exact ih t2 t1 (id :: live) live1 (Bookkeeping_insert v t t2 live id hb hadd).2 h
    | remove id =>
      simp only [runLive] at h
      split at h
      · rename_i hmem
        split at h
        · simp at h
        · rename_i t2 hrem
          exact ih t2 t1 (live.erase id) live1 (Bookkeeping_remove t t2 live id hb hmem hrem) h
      · simp at h

/-- C16 (id bookkeeping invariant): in every state reached from a freshly
created object map by inserts and by removes of live ids, the live ids and the
stack of available ids are disjoint, the stack holds no duplicate (nor does the
list of live ids), together they are exactly the ids `0 .. count + stackSize - 1`,
and `count + stackSize ≤ capacity`; so `count ≤ capacity`, an id returned by an
insert is never a live id, and every live id is below the capacity. -/
theorem id_bookkeeping_invariant {α : Type} (initCap : Nat) (junkObjects : Nat → α)
    (junk : Nat → Nat) (ops : List (TableOp α)) (t : ObjectTable α) (live : List Nat)
    (h : runLive (createTable initCap junkObjects junk) [] ops = some (t, live)) :
    (∀ x, x ∈ live → x ∉ t.map.availableIds)
    ∧ t.map.availableIds.Nodup ∧ live.Nodup
    ∧ (∀ x, (x ∈ live ∨ x ∈ t.map.availableIds) ↔
        x < t.objectCount + t.map.availableIds.length)
    ∧ t.objectCount + t.map.availableIds.length ≤ t.cap
    ∧ t.objectCount ≤ t.cap
    ∧ (∀ v id t1, addSceneObject v t = some (id, t1) → id ∉ live)
    ∧ (∀ x, x ∈ live → x < t.cap) := by
  have hb := Bookkeeping_runLive ops _ t [] live
    (Bookkeeping_fresh initCap junkObjects junk) h
  obtain ⟨hl, hs, hdis, hun, hlen, hcap, halloc⟩ := hb
  refine ⟨hdis, hs, hl, hun, hcap, by omega, ?_, ?_⟩
  · intro v id t1 hadd
    exact (Bookkeeping_insert v t t1 live id ⟨hl, hs, hdis, hun, hlen, hcap, halloc⟩ hadd).1
  · intro x hx
    have := (hun x).1 (Or.inl hx)
    omega

/-- The witness of C16: three inserts into a fresh table of capacity 8, then the
removes of ids 0 and 1; id 2 is live and ids 1 and 0 are on the stack. -/
theorem id_bookkeeping_invariant_witness :
    runLive (freshNat 8) []
        [.insert 10, .insert 11, .insert 12, .remove 0, .remove 1]
      = some (oneObjectTwoFree, [2])
    ∧ (∀ x, x ∈ [2] → x ∉ oneObjectTwoFree.map.availableIds)
    ∧ oneObjectTwoFree.map.availableIds.Nodup ∧ [2].Nodup
    ∧ (∀ x, (x ∈ [2] ∨ x ∈ oneObjectTwoFree.map.availableIds) ↔
        x < oneObjectTwoFree.objectCount + oneObjectTwoFree.map.availableIds.length)
    ∧ oneObjectTwoFree.objectCount + oneObjectTwoFree.map.availableIds.length
        ≤ oneObjectTwoFree.cap
    ∧ oneObjectTwoFree.objectCount ≤ oneObjectTwoFree.cap
    ∧ (∀ v id t1, addSceneObject v oneObjectTwoFree = some (id, t1) → id ∉ [2])
    ∧ (∀ x, x ∈ [2] → x < oneObjectTwoFree.cap) :=
  ⟨rfl, id_bookkeeping_invariant 8 (fun _ => 0) (fun _ => 0)
    [.insert 10, .insert 11, .insert 12, .remove 0, .remove 1] oneObjectTwoFree [2] rfl⟩

/-- C13 as stated fails: after three inserts into a fresh table and the removes
of ids 0 and 1, the ids 0 and 1 are both available for reuse, and the next
insert returns 1, the id on top of the stack, not the smallest available id 0. -/
theorem addSceneObject_reuse_is_not_smallest :
    runLive (freshNat 8) []
        [.insert 10, .insert 11, .insert 12, .remove 0, .remove 1]
      = some (oneObjectTwoFree, [2])
    ∧ oneObjectTwoFree.map.availableIds = [1, 0]
    ∧ ∃ t1, addSceneObject 13 oneObjectTwoFree = some (1, t1)
      ∧ 0 ∈ oneObjectTwoFree.map.availableIds ∧ 0 < 1 :=
  ⟨rfl, rfl, _, rfl, by decide, by decide⟩

/-- C13 as amended: in every state reached from a freshly created object map by
inserts and by removes of live ids in which the stack of available ids is not
empty, the next insert completes and returns the id on top of the stack, the id
freed last among those not reused yet; that id is not live, and the stack is
popped. -/
theorem addSceneObject_reuses_top_of_stack {α : Type} (initCap : Nat)
    (junkObjects : Nat → α) (junk : Nat → Nat) (ops : List (TableOp α))
    (t : ObjectTable α) (live : List Nat) (top : Nat) (rest : List Nat) (v : α)
    (h : runLive (createTable initCap junkObjects junk) [] ops = some (t, live))
    (hstack : t.map.availableIds = top :: rest) :
    ∃ t1, addSceneObject v t = some (top, t1)
      ∧ t1.map.availableIds = rest ∧ top ∉ live := by
  have hb := Bookkeeping_runLive ops _ t [] live
    (Bookkeeping_fresh initCap junkObjects junk) h
  obtain ⟨hl, hs, hdis, hun, hlen, hcap, halloc⟩ := hb
  rw [hstack] at hcap halloc
  simp only [List.length_cons] at hcap halloc
  have heq := addSceneObject_eq v t (by omega) (by omega)
  rw [hstack] at heq
  refine ⟨_, heq, rfl, ?_⟩
  intro hmem
  exact hdis top hmem (by rw [hstack]; exact List.mem_cons_self _ _)

/-- The witness of the amended C13: the state with id 2 live and ids 1 and 0 on
the stack; the next insert returns 1. -/
theorem addSceneObject_reuses_top_of_stack_witness :
    runLive (freshNat 8) []
        [.insert 10, .insert 11, .insert 12, .remove 0, .remove 1]
      = some (oneObjectTwoFree, [2])
    ∧ oneObjectTwoFree.map.availableIds = [1, 0]
    ∧ ∃ t1, addSceneObject 13 oneObjectTwoFree = some (1, t1)
      ∧ t1.map.availableIds = [0] ∧ 1 ∉ [2] :=
  ⟨rfl, rfl, addSceneObject_reuses_top_of_stack 8 (fun _ => 0) (fun _ => 0)
    [.insert 10, .insert 11, .insert 12, .remove 0, .remove 1] oneObjectTwoFree [2] 1 [0] 13
    rfl rfl⟩

/-! ## Binding without removals -/

end Obsidian
